import Mathlib

/-!
# lite_bangumi_api: request dispatch and endpoint URL mapping

A shallow embedding of the Go package `lite_bangumi_api` (files `common.go`,
`api_*.go`).  Go strings are modelled by Lean strings, read as their UTF-8
bytes wherever the Go code works on bytes, so the strings ranged over are the
well-formed UTF-8 ones.  The Go standard library functions
the package calls (`strconv.Itoa`, `fmt.Sprintf`, `url.QueryEscape`,
`url.Values`, `http.NewRequest`) are modelled after the Go sources; the HTTP
client is a parameter.  Every function returns, next to its Go results, the
list of requests it handed to `client.Do`.
-/

set_option autoImplicit false
set_option maxRecDepth 8192

namespace LiteBangumi

/-! ## Go strings and bytes -/

/-- A byte sequence, each element below 256. -/
abbrev Bytes := List Nat

/-- The bytes of a Go string: the UTF-8 encoding of its characters. -/
def bytes (s : String) : Bytes :=
  s.data.flatMap fun c => (String.utf8EncodeChar c).map UInt8.toNat

/-- The byte value of an ASCII character constant such as `'a'` in Go. -/
abbrev byte (c : Char) : Nat := c.toNat

/-- Go's `a < b` on strings: lexicographic comparison of the bytes. -/
def strLess (a b : String) : Bool := decide (bytes a < bytes b)

/-! ## strconv and fmt -/

/-- Go's `strconv.Itoa`: the decimal rendering of an `int`, with a leading `-`
for negative values. -/
def Itoa (i : Int) : String := toString i

/-- An operand of `fmt.Sprintf`; the package passes only strings and ints. -/
inductive Arg where
  | str (s : String)
  | int (i : Int)
  deriving DecidableEq, Repr

/-- The Go type name `fmt` prints for an operand in its error renderings. -/
def Arg.typeName : Arg → String
  | .str _ => "string"
  | .int _ => "int"

/-- The default (`%v`) rendering of an operand. -/
def Arg.value : Arg → String
  | .str s => s
  | .int i => Itoa i

/-- The rendering of one operand under the verb `verb`.  The format strings of
this package use the verbs `%s` (on strings) and `%d` (on ints) only, without
flags, width or precision; a verb applied to an operand of the wrong type
renders as `%!verb(type=value)`. -/
def formatVerb (verb : Char) (a : Arg) : String :=
  match a with
  | .str s => if verb = 's' ∨ verb = 'v' then s
              else "%!" ++ String.singleton verb ++ "(string=" ++ s ++ ")"
  | .int i => if verb = 'd' ∨ verb = 'v' then Itoa i
              else "%!" ++ String.singleton verb ++ "(int=" ++ Itoa i ++ ")"

/-- What `fmt.Sprintf` appends when operands are left over after the format
string is used up: `%!(EXTRA type=value, type=value)`. -/
def Sprintf.extra : List Arg → String
  | [] => ""
  | a :: as =>
    "%!(EXTRA " ++
      String.intercalate ", " ((a :: as).map fun x => x.typeName ++ "=" ++ x.value) ++ ")"

/-- The scan of `fmt.Sprintf` over the characters of the format string. -/
def Sprintf.go : List Char → List Arg → String
  | [], args => Sprintf.extra args
  | [c], args =>
    if c = '%' then "%!(NOVERB)" ++ Sprintf.extra args
    else String.singleton c ++ Sprintf.extra args
  | c :: v :: rest, args =>
    if c = '%' then
      if v = '%' then "%" ++ Sprintf.go rest args
      else
        match args with
        | [] => "%!" ++ String.singleton v ++ "(MISSING)" ++ Sprintf.go rest []
        | a :: as => formatVerb v a ++ Sprintf.go rest as
    else String.singleton c ++ Sprintf.go (v :: rest) args

/-- Go's `fmt.Sprintf(format, args...)`. -/
def Sprintf (format : String) (args : List Arg) : String :=
  Sprintf.go format.data args

/-! ## net/url: query escaping and `url.Values` -/

/-- The escaping modes of `net/url`. -/
inductive encoding where
  | encodePath
  | encodePathSegment
  | encodeHost
  | encodeZone
  | encodeUserPassword
  | encodeQueryComponent
  | encodeFragment
  deriving DecidableEq, Repr

open encoding

/-- Whether `c` is an ASCII letter or digit. -/
def isAlnum (c : Nat) : Bool :=
  (byte 'a' ≤ c && c ≤ byte 'z') || (byte 'A' ≤ c && c ≤ byte 'Z') ||
    (byte '0' ≤ c && c ≤ byte '9')

/-- Go's `url.shouldEscape(c, mode)`. -/
def shouldEscape (c : Nat) (mode : encoding) : Bool :=
  if isAlnum c then false
  else if (mode = encodeHost ∨ mode = encodeZone) ∧
      c ∈ [byte '!', byte '$', byte '&', 39, byte '(', byte ')', byte '*', byte '+',
            byte ',', byte ';', byte '=', byte ':', byte '[', byte ']', byte '<',
            byte '>', byte '"'] then false
  else if c ∈ [byte '-', byte '_', byte '.', byte '~'] then false
  else if c ∈ [byte '$', byte '&', byte '+', byte ',', byte '/', byte ':', byte ';',
                byte '=', byte '?', byte '@'] then
    match mode with
    | encodePath => c == byte '?'
    | encodePathSegment =>
      c == byte '/' || c == byte ';' || c == byte ',' || c == byte '?'
    | encodeUserPassword =>
      c == byte '@' || c == byte '/' || c == byte '?' || c == byte ':'
    | encodeQueryComponent => true
    | encodeFragment => false
    | _ => true
  else if mode = encodeFragment ∧ c ∈ [byte '!', byte '(', byte ')', byte '*'] then false
  else true

/-- The digit table `upperhex` of `net/url`. -/
def upperhex (n : Nat) : Char := "0123456789ABCDEF".data.getD n '0'

/-- Go's `url.escape(s, mode)`: every byte that `shouldEscape` selects becomes
`%XX`, except that a space becomes `+` in query-component mode. -/
def escape (s : String) (mode : encoding) : String :=
  String.mk ((bytes s).flatMap fun c =>
    if shouldEscape c mode then
      if c = byte ' ' ∧ mode = encodeQueryComponent then ['+']
      else ['%', upperhex (c >>> 4), upperhex (c &&& 15)]
    else [Char.ofNat c])

/-- Go's `url.QueryEscape`. -/
def QueryEscape (s : String) : String := escape s encodeQueryComponent

/-- Go's `url.Values`, a `map[string][]string`: one entry per key. -/
abbrev Values := List (String × List String)

/-- The empty map `url.Values{}`. -/
def Values.empty : Values := []

/-- Go's `Values.Add(key, value)`: `v[key] = append(v[key], value)`. -/
def Values.Add : Values → String → String → Values
  | [], key, value => [(key, [value])]
  | (k, vs) :: rest, key, value =>
    if k = key then (k, vs ++ [value]) :: rest
    else (k, vs) :: Values.Add rest key value

/-- The slice `v[k]` of a `url.Values`. -/
def Values.get : Values → String → List String
  | [], _ => []
  | (k, vs) :: rest, key => if k = key then vs else Values.get rest key

/-- Insertion of a string into a list sorted by `strLess`. -/
def insertSorted (k : String) : List String → List String
  | [] => [k]
  | x :: xs => if strLess x k then x :: insertSorted k xs else k :: x :: xs

/-- Go's `slices.Sort` on a slice of strings. -/
def sortStrings : List String → List String
  | [] => []
  | k :: ks => insertSorted k (sortStrings ks)

/-- Go's `Values.Encode()`: the keys in sorted order, each value written as
`key=value` with both sides query-escaped, an `&` written first whenever the
buffer is not empty. -/
def Values.Encode (v : Values) : String :=
  if v.length = 0 then ""
  else
    (sortStrings (v.map Prod.fst)).foldl
      (fun buf k =>
        (Values.get v k).foldl
          (fun buf val =>
            (if buf.length > 0 then buf ++ "&" else buf) ++
              QueryEscape k ++ "=" ++ QueryEscape val)
          buf)
      ""

/-! ## net/url: which strings `url.Parse` accepts -/

/-- Go's `strings.HasPrefix` on bytes. -/
def startsWith (s p : Bytes) : Bool := p.isPrefixOf s

/-- Go's `strings.Cut(s, sep)` for a one-byte separator: the text before the
first `sep` and the text after it (all of `s` and nothing when `sep` is absent). -/
def cut (s : Bytes) (sep : Nat) : Bytes × Bytes :=
  (s.takeWhile (fun b => b != sep), (s.dropWhile (fun b => b != sep)).drop 1)

/-- Go's `strings.LastIndex(s, sep)` for a one-byte separator; `none` is `-1`. -/
def lastIndex (s : Bytes) (sep : Nat) : Option Nat :=
  let i := s.reverse.indexOf sep
  if i < s.length then some (s.length - 1 - i) else none

/-- Go's `strings.Index(s, sub)`; `none` is `-1`. -/
def indexSub : Bytes → Bytes → Option Nat
  | [], sub => if sub = [] then some 0 else none
  | c :: rest, sub =>
    if sub.isPrefixOf (c :: rest) then some 0
    else (indexSub rest sub).map fun i => i + 1

/-- Go's `stringContainsCTLByte`: some byte is below 0x20 or is 0x7f. -/
def stringContainsCTLByte (s : Bytes) : Bool :=
  s.any fun b => b < 0x20 || b == 0x7f

/-- Go's `ishex`. -/
def ishex (c : Nat) : Bool :=
  (byte '0' ≤ c && c ≤ byte '9') || (byte 'a' ≤ c && c ≤ byte 'f') ||
    (byte 'A' ≤ c && c ≤ byte 'F')

/-- Go's `unhex`. -/
def unhex (c : Nat) : Nat :=
  if byte '0' ≤ c ∧ c ≤ byte '9' then c - byte '0'
  else if byte 'a' ≤ c ∧ c ≤ byte 'f' then c - byte 'a' + 10
  else if byte 'A' ≤ c ∧ c ≤ byte 'F' then c - byte 'A' + 10
  else 0

/-- Whether Go's `url.unescape(s, mode)` returns a nil error: every `%` is
followed by two hex digits, and in host and zone mode the bytes and escapes are
those a host may hold. -/
def unescapeOK : Bytes → encoding → Bool
  | [], _ => true
  | [c], mode =>
    if c = byte '%' then false
    else if c = byte '+' then true
    else !((mode = encodeHost ∨ mode = encodeZone) && c < 0x80 && shouldEscape c encodeHost)
  | [c, d], mode =>
    if c = byte '%' then false
    else if c = byte '+' then unescapeOK [d] mode
    else if (mode = encodeHost ∨ mode = encodeZone) && c < 0x80 && shouldEscape c encodeHost
    then false
    else unescapeOK [d] mode
  | c :: d :: e :: rest, mode =>
    if c = byte '%' then
      if !ishex d || !ishex e then false
      else if mode = encodeHost && unhex d < 8 && [c, d, e] != bytes "%25" then false
      else if mode = encodeZone && ([c, d, e] != bytes "%25" &&
          (unhex d * 16 + unhex e) != byte ' ' &&
          shouldEscape (unhex d * 16 + unhex e) encodeHost) then false
      else unescapeOK rest mode
    else if c = byte '+' then unescapeOK (d :: e :: rest) mode
    else if (mode = encodeHost ∨ mode = encodeZone) && c < 0x80 && shouldEscape c encodeHost
    then false
    else unescapeOK (d :: e :: rest) mode

/-- The loop of Go's `getScheme`: `seen` holds the bytes already passed. -/
def getScheme.loop (rawURL : Bytes) : Bytes → Bytes → Option (Bytes × Bytes)
  | _, [] => some ([], rawURL)
  | seen, c :: rest =>
    if (byte 'a' ≤ c && c ≤ byte 'z') || (byte 'A' ≤ c && c ≤ byte 'Z') then
      getScheme.loop rawURL (seen ++ [c]) rest
    else if (byte '0' ≤ c && c ≤ byte '9') || c == byte '+' || c == byte '-' ||
        c == byte '.' then
      if seen = [] then some ([], rawURL) else getScheme.loop rawURL (seen ++ [c]) rest
    else if c == byte ':' then
      if seen = [] then none else some (seen, rest)
    else some ([], rawURL)

/-- Go's `getScheme(rawURL)`: the scheme and the rest, `none` for the error
"missing protocol scheme". -/
def getScheme (rawURL : Bytes) : Option (Bytes × Bytes) :=
  getScheme.loop rawURL [] rawURL

/-- Go's `validOptionalPort`: empty, or a colon followed by digits only. -/
def validOptionalPort : Bytes → Bool
  | [] => true
  | c :: rest => c == byte ':' && rest.all fun b => byte '0' ≤ b && b ≤ byte '9'

/-- Go's `validUserinfo`: letters, digits and a fixed set of punctuation.  A
byte of 0x80 or more belongs to a rune outside that set. -/
def validUserinfo (s : Bytes) : Bool :=
  s.all fun r =>
    isAlnum r ||
      [byte '-', byte '.', byte '_', byte ':', byte '~', byte '!', byte '$', byte '&', 39,
        byte '(', byte ')', byte '*', byte '+', byte ',', byte ';', byte '=', byte '%',
        byte '@'].contains r

/-- Whether Go's `parseHost(host)` returns a nil error. -/
def parseHost (host : Bytes) : Bool :=
  if startsWith host (bytes "[") then
    match lastIndex host (byte ']') with
    | none => false
    | some i =>
      if !validOptionalPort (host.drop (i + 1)) then false
      else
        match indexSub (host.take i) (bytes "%25") with
        | some zone =>
          unescapeOK (host.take zone) encodeHost &&
            unescapeOK ((host.take i).drop zone) encodeZone &&
            unescapeOK (host.drop i) encodeHost
        | none => unescapeOK host encodeHost
  else
    match lastIndex host (byte ':') with
    | some i => validOptionalPort (host.drop i) && unescapeOK host encodeHost
    | none => unescapeOK host encodeHost

/-- Whether Go's `parseAuthority(authority)` returns a nil error. -/
def parseAuthority (authority : Bytes) : Bool :=
  match lastIndex authority (byte '@') with
  | none => parseHost authority
  | some i =>
    parseHost (authority.drop (i + 1)) &&
      validUserinfo (authority.take i) &&
      (if !(authority.take i).contains (byte ':') then
        unescapeOK (authority.take i) encodeUserPassword
      else
        unescapeOK (cut (authority.take i) (byte ':')).1 encodeUserPassword &&
          unescapeOK (cut (authority.take i) (byte ':')).2 encodeUserPassword)

/-- The part of Go's `url.parse(rawURL, false)` after the scheme is split off:
`rest` is the text after the scheme. -/
def parseRest (scheme rest : Bytes) : Bool :=
  let rest :=
    if rest.getLast? = some (byte '?') ∧ rest.count (byte '?') = 1 then rest.dropLast
    else (cut rest (byte '?')).1
  if !startsWith rest (bytes "/") ∧ scheme ≠ [] then true
  else if !startsWith rest (bytes "/") ∧ (cut rest (byte '/')).1.contains (byte ':') then false
  else if (scheme ≠ [] ∨ !startsWith rest (bytes "///")) ∧ startsWith rest (bytes "//") then
    parseAuthority (cut (rest.drop 2) (byte '/')).1 &&
      unescapeOK ((rest.drop 2).dropWhile fun b => b != byte '/') encodePath
  else unescapeOK rest encodePath

/-- Whether Go's `url.parse(rawURL, false)` returns a nil error. -/
def parse (rawURL : Bytes) : Bool :=
  if stringContainsCTLByte rawURL then false
  else if rawURL = bytes "*" then true
  else
    match getScheme rawURL with
    | none => false
    | some (scheme, rest) => parseRest scheme rest

/-- Whether Go's `url.Parse(rawURL)` returns a nil error: the text before the
first `#` must parse, and the fragment after it must unescape. -/
def Parse (rawURL : String) : Bool :=
  parse (cut (bytes rawURL) (byte '#')).1 &&
    unescapeOK (cut (bytes rawURL) (byte '#')).2 encodeFragment

/-! ## net/http: requests, responses and the client -/

/-- The token characters of RFC 7230, the table `isTokenTable` of Go's
`httpguts`. -/
def isTokenRune (r : Char) : Bool :=
  r.toNat < 0x80 &&
    (isAlnum r.toNat ||
      [byte '!', byte '#', byte '$', byte '%', byte '&', 39, byte '*', byte '+', byte '-',
        byte '.', byte '^', byte '_', 96, byte '|', byte '~'].contains r.toNat)

/-- Go's `validMethod`: a non-empty string of token characters. -/
def validMethod (method : String) : Bool :=
  method.data.length > 0 && method.data.all isTokenRune

/-- Go's `http.Header`, here the list of the keys set and their values.  The
keys this package sets are already in canonical form. -/
abbrev Header := List (String × String)

/-- Go's `Header.Set(key, value)`: the entry of `key` is replaced. -/
def Header.Set : Header → String → String → Header
  | [], key, value => [(key, value)]
  | (k, v) :: rest, key, value =>
    if k = key then (k, value) :: rest else (k, v) :: Header.Set rest key value

/-- What this model keeps of a Go `*http.Request`: the method, the URL text
given to `http.NewRequest`, the bytes of the body reader (`none` for a nil
reader) and the headers. -/
structure Request where
  Method : String
  URL : String
  Body : Option Bytes
  Header : Header
  deriving DecidableEq, Repr

/-- Go's `http.NewRequest(method, url, body)`; `none` stands for a non-nil
error.  An empty method means GET; the method must be a token and the URL must
be accepted by `url.Parse`. -/
def NewRequest (method url : String) (body : Option Bytes) : Option Request :=
  let method := if method = "" then "GET" else method
  if !validMethod method then none
  else if !Parse url then none
  else some { Method := method, URL := url, Body := body, Header := [] }

/-- What this model keeps of a Go `*http.Response`: the status code and what
`io.ReadAll(resp.Body)` gives, `none` when reading fails. -/
structure Response where
  StatusCode : Int
  Body : Option Bytes
  deriving DecidableEq, Repr

/-- The injected `*http.Client`: `Do` answers a request with a response, or with
`none` for a transport error. -/
structure Client where
  Do : Request → Option Response

/-- The package-level variables `Token` and `UserAgent`. -/
structure Globals where
  Token : String
  UserAgent : String
  deriving DecidableEq, Repr

/-- The outcome of a call: the Go result value, the Go error (its message,
`none` for nil) and the requests handed to `client.Do`, in order. -/
structure Result (α : Type) where
  val : α
  err : Option String
  sent : List Request

/-! ## common.go -/

/-- The three `req.Header.Set` calls shared by both dispatchers. -/
def setHeaders (g : Globals) (req : Request) : Request :=
  { req with
    Header :=
      ((req.Header.Set "Content-Type" "application/json").Set "Authorization"
        ("Bearer " ++ g.Token)).Set "User-Agent" g.UserAgent }

/-- The request both dispatchers build: no body reader for an empty
`requestBody`, a buffer of its bytes otherwise. -/
def buildRequest (method url requestBody : String) : Option Request :=
  if (bytes requestBody).length = 0 then NewRequest method url none
  else NewRequest method url (some (bytes requestBody))

/-- The function `getJsonDataFromURL` of `common.go`; the value is the returned
`[]byte`, `none` for nil. -/
def getJsonDataFromURL (g : Globals) (method url requestBody : String) (client : Client) :
    Result (Option Bytes) :=
  match buildRequest method url requestBody with
  | none => ⟨none, some "getJsonDataFromURL：不正确的请求", []⟩
  | some req =>
    match client.Do (setHeaders g req) with
    | none => ⟨none, some "getJsonDataFromURL：连接失败或超时", [setHeaders g req]⟩
    | some resp =>
      if resp.StatusCode ≠ 200 then
        ⟨none, some ("getJsonDataFromURL：错误的返回码:" ++ Itoa resp.StatusCode),
          [setHeaders g req]⟩
      else
        match resp.Body with
        | none => ⟨none, some "getJsonDataFromURL：获取信息失败", [setHeaders g req]⟩
        | some body => ⟨some body, none, [setHeaders g req]⟩

/-- The function `getBoolDataFromURL` of `common.go`; it returns an error only. -/
def getBoolDataFromURL (g : Globals) (method url requestBody : String) (client : Client) :
    Result Unit :=
  match buildRequest method url requestBody with
  | none => ⟨(), some "getBoolDataFromURL：不正确的请求", []⟩
  | some req =>
    match client.Do (setHeaders g req) with
    | none => ⟨(), some "getBoolDataFromURL：连接失败或超时", [setHeaders g req]⟩
    | some resp =>
      if resp.StatusCode ≠ 200 ∧ resp.StatusCode ≠ 204 then
        ⟨(), some ("getBoolDataFromURL：错误的返回码:" ++ Itoa resp.StatusCode),
          [setHeaders g req]⟩
      else ⟨(), none, [setHeaders g req]⟩

/-- The tail shared by the endpoints that return `([]byte, error)`:
`if err != nil { return nil, err }; return jsonData, nil`. -/
def returnJson (r : Result (Option Bytes)) : Result (Option Bytes) :=
  match r.err with
  | some e => ⟨none, some e, r.sent⟩
  | none => ⟨r.val, none, r.sent⟩

/-- The tail shared by the endpoints that return `(bool, error)`:
`if err != nil { return false, err }; return true, nil`. -/
def returnBool (r : Result Unit) : Result Bool :=
  match r.err with
  | some e => ⟨false, some e, r.sent⟩
  | none => ⟨true, none, r.sent⟩

/-! ## api_collections.go -/

/-- The first `switch` of `SearchCollectionsByUserName`; `none` is its `default`
branch, which returns the error. -/
def SearchCollectionsByUserName.sType (subjectTypeName : String) : Option Int :=
  if subjectTypeName = "书籍" then some 1
  else if subjectTypeName = "动漫" then some 2
  else if subjectTypeName = "音乐" then some 3
  else if subjectTypeName = "游戏" then some 4
  else if subjectTypeName = "三次元" then some 6
  else none

/-- The second `switch` of `SearchCollectionsByUserName`. -/
def SearchCollectionsByUserName.tType (typeName : String) : Int :=
  if typeName = "想看" then 1
  else if typeName = "看过" then 2
  else if typeName = "在看" then 3
  else if typeName = "搁置" then 4
  else if typeName = "抛弃" then 5
  else 0

/-- The `params` and `apiURL` of `SearchCollectionsByUserName`. -/
def SearchCollectionsByUserName.apiURL (userName : String) (sType tType : Int)
    (limit offset : String) : String :=
  let params := Values.empty
  let params := params.Add "subject_type" (Sprintf "%d" [.int sType])
  let params := params.Add "type" (Sprintf "%d" [.int tType])
  let params := params.Add "limit" (Sprintf "%s" [.str limit])
  let params := params.Add "offset" (Sprintf "%s" [.str offset])
  Sprintf "https://api.bgm.tv/v0/users/%s/collections?%s" [.str userName, .str params.Encode]

/-- The function `SearchCollectionsByUserName` of `api_collections.go`. -/
def SearchCollectionsByUserName (g : Globals)
    (userName subjectTypeName typeName limit offset : String) (client : Client) :
    Result (Option Bytes) :=
  match SearchCollectionsByUserName.sType subjectTypeName with
  | none => ⟨none, some "不匹配的subjectTypeName", []⟩
  | some sType =>
    let tType := SearchCollectionsByUserName.tType typeName
    let apiURL := SearchCollectionsByUserName.apiURL userName sType tType limit offset
    returnJson (getJsonDataFromURL g "GET" apiURL "" client)

/-- The `switch` of `SearchUsersCollectionsEpisodesBySubjectsID`. -/
def SearchUsersCollectionsEpisodesBySubjectsID.sType (episodesType : String) : Int :=
  if episodesType = "本篇" then 0
  else if episodesType = "特别篇" then 1
  else if episodesType = "OP" then 2
  else if episodesType = "ED" then 3
  else if episodesType = "预告/宣传/广告" then 4
  else if episodesType = "MAD" then 5
  else if episodesType = "其他" then 6
  else 0

/-- The `params` and `apiURL` of `SearchUsersCollectionsEpisodesBySubjectsID`.
The format string has one verb and is given two operands. -/
def SearchUsersCollectionsEpisodesBySubjectsID.apiURL (subID offset limit : String)
    (sType : Int) : String :=
  let params := Values.empty
  let params := params.Add "episode_type" (Sprintf "%d" [.int sType])
  let params := params.Add "limit" (Sprintf "%s" [.str limit])
  let params := params.Add "offset" (Sprintf "%s" [.str offset])
  Sprintf "https://api.bgm.tv/v0/users/-/collections/%s/episodes?"
    [.str subID, .str params.Encode]

/-- The function `SearchUsersCollectionsEpisodesBySubjectsID` of
`api_collections.go`. -/
def SearchUsersCollectionsEpisodesBySubjectsID (g : Globals)
    (subID offset limit episodesType : String) (client : Client) : Result (Option Bytes) :=
  let sType := SearchUsersCollectionsEpisodesBySubjectsID.sType episodesType
  let apiURL := SearchUsersCollectionsEpisodesBySubjectsID.apiURL subID offset limit sType
  returnJson (getJsonDataFromURL g "GET" apiURL "" client)

/-! ## api_subjects.go -/

/-- The `params` and `apiURL` of `SearchSubjectsByName`. -/
def SearchSubjectsByName.apiURL (limit offset : String) : String :=
  let baseURL := "https://api.bgm.tv/v0/search/subjects"
  let params := Values.empty
  let params := params.Add "limit" (Sprintf "%s" [.str limit])
  let params := params.Add "offset" (Sprintf "%s" [.str offset])
  Sprintf "%s?%s" [.str baseURL, .str params.Encode]

/-- The function `SearchSubjectsByName` of `api_subjects.go`. -/
def SearchSubjectsByName (g : Globals) (limit offset requestBody : String)
    (client : Client) : Result (Option Bytes) :=
  let apiURL := SearchSubjectsByName.apiURL limit offset
  returnJson (getJsonDataFromURL g "POST" apiURL requestBody client)

/-- The `apiURL` of `SearchSubjectsById`. -/
def SearchSubjectsById.apiURL (subID : String) : String :=
  let baseURL := "https://api.bgm.tv/v0/subjects/"
  Sprintf "%s%s" [.str baseURL, .str subID]

/-- The function `SearchSubjectsById` of `api_subjects.go`. -/
def SearchSubjectsById (g : Globals) (subID : String) (client : Client) :
    Result (Option Bytes) :=
  let apiURL := SearchSubjectsById.apiURL subID
  returnJson (getJsonDataFromURL g "GET" apiURL "" client)

/-- The `switch` of `SearchAllSubjectsByName`. -/
def SearchAllSubjectsByName.sType (typeName : String) : Int :=
  if typeName = "书籍" then 1
  else if typeName = "动漫" then 2
  else if typeName = "音乐" then 3
  else if typeName = "游戏" then 4
  else if typeName = "三次元" then 6
  else 0

/-- The `params` and `apiURL` of `SearchAllSubjectsByName`. -/
def SearchAllSubjectsByName.apiURL (keyWord : String) (sType : Int)
    (responseGroup start nmaxResults : String) : String :=
  let baseURL := "https://api.bgm.tv/search/subject/"
  let params := Values.empty
  let params := params.Add "type" (Sprintf "%d" [.int sType])
  let params := params.Add "responseGroup" (Sprintf "%s" [.str responseGroup])
  let params := params.Add "start" (Sprintf "%s" [.str start])
  let params := params.Add "max_results" (Sprintf "%s" [.str nmaxResults])
  Sprintf "%s%s?%s" [.str baseURL, .str keyWord, .str params.Encode]

/-- The function `SearchAllSubjectsByName` of `api_subjects.go`. -/
def SearchAllSubjectsByName (g : Globals)
    (keyWord typeName responseGroup start nmaxResults : String) (client : Client) :
    Result (Option Bytes) :=
  let sType := SearchAllSubjectsByName.sType typeName
  let apiURL := SearchAllSubjectsByName.apiURL keyWord sType responseGroup start nmaxResults
  returnJson (getJsonDataFromURL g "GET" apiURL "" client)

/-! ## api_indices.go -/

/-- The `switch` of `GetIndicesSubjectByID`. -/
def GetIndicesSubjectByID.sType (typeName : String) : Int :=
  if typeName = "书籍" then 1
  else if typeName = "动漫" then 2
  else if typeName = "音乐" then 3
  else if typeName = "游戏" then 4
  else if typeName = "三次元" then 6
  else 0

/-- The `params` and `apiURL` of `GetIndicesSubjectByID`. -/
def GetIndicesSubjectByID.apiURL (idxID : String) (sType : Int) (limit offset : String) :
    String :=
  let params := Values.empty
  let params := params.Add "type" (Sprintf "%d" [.int sType])
  let params := params.Add "limit" (Sprintf "%s" [.str limit])
  let params := params.Add "offset" (Sprintf "%s" [.str offset])
  Sprintf "https://api.bgm.tv/v0/indices/%s/subjects?%s" [.str idxID, .str params.Encode]

/-- The function `GetIndicesSubjectByID` of `api_indices.go`. -/
def GetIndicesSubjectByID (g : Globals) (idxID typeName limit offset : String)
    (client : Client) : Result Bool :=
  let sType := GetIndicesSubjectByID.sType typeName
  let apiURL := GetIndicesSubjectByID.apiURL idxID sType limit offset
  returnBool (getBoolDataFromURL g "GET" apiURL "" client)

/-! ## api_episodes.go -/

/-- The `switch` of `SearchEpisodesByEpisodesName`. -/
def SearchEpisodesByEpisodesName.sType (typeName : String) : Int :=
  if typeName = "本篇" then 0
  else if typeName = "特别篇" then 1
  else if typeName = "OP" then 2
  else if typeName = "ED" then 3
  else if typeName = "预告/宣传/广告" then 4
  else if typeName = "MAD" then 5
  else if typeName = "其他" then 6
  else 0

/-- The `params` and `apiURL` of `SearchEpisodesByEpisodesName`. -/
def SearchEpisodesByEpisodesName.apiURL (sbjID : String) (sType : Int)
    (limit offset : String) : String :=
  let baseURL := "https://api.bgm.tv/v0/episodes"
  let params := Values.empty
  let params := params.Add "subject_id" (Sprintf "%s" [.str sbjID])
  let params := params.Add "type" (Sprintf "%d" [.int sType])
  let params := params.Add "limit" (Sprintf "%s" [.str limit])
  let params := params.Add "offset" (Sprintf "%s" [.str offset])
  Sprintf "%s?%s" [.str baseURL, .str params.Encode]

/-- The function `SearchEpisodesByEpisodesName` of `api_episodes.go`. -/
def SearchEpisodesByEpisodesName (g : Globals) (sbjID typeName limit offset : String)
    (client : Client) : Result (Option Bytes) :=
  let sType := SearchEpisodesByEpisodesName.sType typeName
  let apiURL := SearchEpisodesByEpisodesName.apiURL sbjID sType limit offset
  returnJson (getJsonDataFromURL g "GET" apiURL "" client)

/-! ## api_characters.go, api_persons.go -/

/-- The `params` and `apiURL` of `SearchCharactersByName`. -/
def SearchCharactersByName.apiURL (limit offset : String) : String :=
  let baseURL := "https://api.bgm.tv/v0/search/characters"
  let params := Values.empty
  let params := params.Add "limit" (Sprintf "%s" [.str limit])
  let params := params.Add "offset" (Sprintf "%s" [.str offset])
  Sprintf "%s?%s" [.str baseURL, .str params.Encode]

/-- The function `SearchCharactersByName` of `api_characters.go`. -/
def SearchCharactersByName (g : Globals) (limit offset requestBody : String)
    (client : Client) : Result (Option Bytes) :=
  let apiURL := SearchCharactersByName.apiURL limit offset
  returnJson (getJsonDataFromURL g "POST" apiURL requestBody client)

/-- The `params` and `apiURL` of `SearchPersonsByName`. -/
def SearchPersonsByName.apiURL (limit offset : String) : String :=
  let baseURL := "https://api.bgm.tv/v0/search/persons"
  let params := Values.empty
  let params := params.Add "limit" (Sprintf "%s" [.str limit])
  let params := params.Add "offset" (Sprintf "%s" [.str offset])
  Sprintf "%s?%s" [.str baseURL, .str params.Encode]

/-- The function `SearchPersonsByName` of `api_persons.go`. -/
def SearchPersonsByName (g : Globals) (limit offset requestBody : String)
    (client : Client) : Result (Option Bytes) :=
  let apiURL := SearchPersonsByName.apiURL limit offset
  returnJson (getJsonDataFromURL g "POST" apiURL requestBody client)

/-! ## api_revisions.go -/

/-- The `params` and `apiURL` of `SearchPersonsRevisionsById`. -/
def SearchPersonsRevisionsById.apiURL (perID limit offset : String) : String :=
  let baseURL := "https://api.bgm.tv/v0/revisions/persons"
  let params := Values.empty
  let params := params.Add "person_id" (Sprintf "%s" [.str perID])
  let params := params.Add "limit" (Sprintf "%s" [.str limit])
  let params := params.Add "offset" (Sprintf "%s" [.str offset])
  Sprintf "%s?%s" [.str baseURL, .str params.Encode]

/-- The function `SearchPersonsRevisionsById` of `api_revisions.go`. -/
def SearchPersonsRevisionsById (g : Globals) (perID limit offset : String)
    (client : Client) : Result (Option Bytes) :=
  let apiURL := SearchPersonsRevisionsById.apiURL perID limit offset
  returnJson (getJsonDataFromURL g "GET" apiURL "" client)

/-- The `params` and `apiURL` of `SearchCharactersRevisionsById`. -/
def SearchCharactersRevisionsById.apiURL (chrID limit offset : String) : String :=
  let baseURL := "https://api.bgm.tv/v0/revisions/characters"
  let params := Values.empty
  let params := params.Add "character_id" (Sprintf "%s" [.str chrID])
  let params := params.Add "limit" (Sprintf "%s" [.str limit])
  let params := params.Add "offset" (Sprintf "%s" [.str offset])
  Sprintf "%s?%s" [.str baseURL, .str params.Encode]

/-- The function `SearchCharactersRevisionsById` of `api_revisions.go`. -/
def SearchCharactersRevisionsById (g : Globals) (chrID limit offset : String)
    (client : Client) : Result (Option Bytes) :=
  let apiURL := SearchCharactersRevisionsById.apiURL chrID limit offset
  returnJson (getJsonDataFromURL g "GET" apiURL "" client)

/-- The `params` and `apiURL` of `SearchSubjectsRevisionsById`. -/
def SearchSubjectsRevisionsById.apiURL (subID limit offset : String) : String :=
  let baseURL := "https://api.bgm.tv/v0/revisions/subjects"
  let params := Values.empty
  let params := params.Add "subject_id" (Sprintf "%s" [.str subID])
  let params := params.Add "limit" (Sprintf "%s" [.str limit])
  let params := params.Add "offset" (Sprintf "%s" [.str offset])
  Sprintf "%s?%s" [.str baseURL, .str params.Encode]

/-- The function `SearchSubjectsRevisionsById` of `api_revisions.go`. -/
def SearchSubjectsRevisionsById (g : Globals) (subID limit offset : String)
    (client : Client) : Result (Option Bytes) :=
  let apiURL := SearchSubjectsRevisionsById.apiURL subID limit offset
  returnJson (getJsonDataFromURL g "GET" apiURL "" client)

/-- The `params` and `apiURL` of `SearchEpisodesRevisionsById`. -/
def SearchEpisodesRevisionsById.apiURL (epiID limit offset : String) : String :=
  let baseURL := "https://api.bgm.tv/v0/revisions/episodes"
  let params := Values.empty
  let params := params.Add "episode_id" (Sprintf "%s" [.str epiID])
  let params := params.Add "limit" (Sprintf "%s" [.str limit])
  let params := params.Add "offset" (Sprintf "%s" [.str offset])
  Sprintf "%s?%s" [.str baseURL, .str params.Encode]

/-- The function `SearchEpisodesRevisionsById` of `api_revisions.go`. -/
def SearchEpisodesRevisionsById (g : Globals) (epiID limit offset : String)
    (client : Client) : Result (Option Bytes) :=
  let apiURL := SearchEpisodesRevisionsById.apiURL epiID limit offset
  returnJson (getJsonDataFromURL g "GET" apiURL "" client)

/-! ## The endpoints without a query string -/

/-! ### api_characters.go -/

/-- The `apiURL` of `SearchCharactersById`. -/
def SearchCharactersById.apiURL (chrID : String) : String :=
  let baseURL := "https://api.bgm.tv/v0/characters/"
  Sprintf "%s%s" [.str baseURL, .str chrID]

/-- The function `SearchCharactersById` of `api_characters.go`, documented there with
the API path `/v0/characters/{character_id}`. -/
def SearchCharactersById (g : Globals) (chrID : String)
    (client : Client) : Result (Option Bytes) :=
  let apiURL := SearchCharactersById.apiURL chrID
  returnJson (getJsonDataFromURL g "GET" apiURL "" client)

/-- The `apiURL` of `SetCollectCharactersById`. -/
def SetCollectCharactersById.apiURL (chrID : String) : String :=
  Sprintf "https://api.bgm.tv/v0/characters/%s/collect" [.str chrID]

/-- The function `SetCollectCharactersById` of `api_characters.go`, documented there with
the API path `/v0/characters/{character_id}/collect`. -/
def SetCollectCharactersById (g : Globals) (chrID : String)
    (client : Client) : Result Bool :=
  let apiURL := SetCollectCharactersById.apiURL chrID
  returnBool (getBoolDataFromURL g "POST" apiURL "" client)

/-- The `apiURL` of `DeleteCollectCharactersById`. -/
def DeleteCollectCharactersById.apiURL (chrID : String) : String :=
  Sprintf "https://api.bgm.tv/v0/characters/%s/collect" [.str chrID]

/-- The function `DeleteCollectCharactersById` of `api_characters.go`, documented there with
the API path `/v0/characters/{character_id}/collect`. -/
def DeleteCollectCharactersById (g : Globals) (chrID : String)
    (client : Client) : Result Bool :=
  let apiURL := DeleteCollectCharactersById.apiURL chrID
  returnBool (getBoolDataFromURL g "DELETE" apiURL "" client)

/-! ### api_collections.go -/

/-- The `apiURL` of `SearchCollectionsByID`. -/
def SearchCollectionsByID.apiURL (userName subID : String) : String :=
  Sprintf "https://api.bgm.tv/v0/users/%s/collections/%s" [.str userName, .str subID]

/-- The function `SearchCollectionsByID` of `api_collections.go`, documented there with
the API path `/v0/users/{username}/collections/{subject_id}`. -/
def SearchCollectionsByID (g : Globals) (userName subID : String)
    (client : Client) : Result (Option Bytes) :=
  let apiURL := SearchCollectionsByID.apiURL userName subID
  returnJson (getJsonDataFromURL g "GET" apiURL "" client)

/-- The `apiURL` of `AddOrEditCollectionsSubjectsInUsersByID`. -/
def AddOrEditCollectionsSubjectsInUsersByID.apiURL (subID : String) : String :=
  Sprintf "https://api.bgm.tv/v0/users/-/collections/%s" [.str subID]

/-- The function `AddOrEditCollectionsSubjectsInUsersByID` of `api_collections.go`, documented there with
the API path `/v0/users/ - /collections/{subject_id}`. -/
def AddOrEditCollectionsSubjectsInUsersByID (g : Globals) (subID requestBody : String)
    (client : Client) : Result Bool :=
  let apiURL := AddOrEditCollectionsSubjectsInUsersByID.apiURL subID
  returnBool (getBoolDataFromURL g "POST" apiURL requestBody client)

/-- The `apiURL` of `EditCollectionsSubjectsInUsersByID`. -/
def EditCollectionsSubjectsInUsersByID.apiURL (subID : String) : String :=
  Sprintf "https://api.bgm.tv/v0/users/-/collections/%s" [.str subID]

/-- The function `EditCollectionsSubjectsInUsersByID` of `api_collections.go`, documented there with
the API path `/v0/users/ - /collections/{subject_id}`. -/
def EditCollectionsSubjectsInUsersByID (g : Globals) (subID requestBody : String)
    (client : Client) : Result Bool :=
  let apiURL := EditCollectionsSubjectsInUsersByID.apiURL subID
  returnBool (getBoolDataFromURL g "PATCH" apiURL requestBody client)

/-- The `apiURL` of `GetCollectionsSubjectsEpisodesInfo`. -/
def GetCollectionsSubjectsEpisodesInfo.apiURL (subID : String) : String :=
  Sprintf "https://api.bgm.tv/v0/users/-/collections/%s" [.str subID]

/-- The function `GetCollectionsSubjectsEpisodesInfo` of `api_collections.go`, documented there with
the API path `/v0/users/ - /collections/{subject_id}/episodes`. -/
def GetCollectionsSubjectsEpisodesInfo (g : Globals) (subID requestBody : String)
    (client : Client) : Result Bool :=
  let apiURL := GetCollectionsSubjectsEpisodesInfo.apiURL subID
  returnBool (getBoolDataFromURL g "PATCH" apiURL requestBody client)

/-- The `apiURL` of `SearchCollectionsEpisodesInfo`. -/
def SearchCollectionsEpisodesInfo.apiURL (epiID : String) : String :=
  Sprintf "https://api.bgm.tv/v0/users/-/collections/-/episodes/%s" [.str epiID]

/-- The function `SearchCollectionsEpisodesInfo` of `api_collections.go`, documented there with
the API path `/v0/users/ - /collections/ - /episodes/{episode_id}`. -/
def SearchCollectionsEpisodesInfo (g : Globals) (epiID : String)
    (client : Client) : Result (Option Bytes) :=
  let apiURL := SearchCollectionsEpisodesInfo.apiURL epiID
  returnJson (getJsonDataFromURL g "GET" apiURL "" client)

/-- The `apiURL` of `UpdateCollectionEpisodesInfo`. -/
def UpdateCollectionEpisodesInfo.apiURL (epiID : String) : String :=
  Sprintf "https://api.bgm.tv/v0/users/-/collections/-/episodes/%s" [.str epiID]

/-- The function `UpdateCollectionEpisodesInfo` of `api_collections.go`, documented there with
the API path `/v0/users/ - /collections/ - /episodes/{episode_id}`. -/
def UpdateCollectionEpisodesInfo (g : Globals) (epiID requestBody : String)
    (client : Client) : Result Bool :=
  let apiURL := UpdateCollectionEpisodesInfo.apiURL epiID
  returnBool (getBoolDataFromURL g "PUT" apiURL requestBody client)

/-- The `apiURL` of `SearchCharactersCollectionsByUserName`. -/
def SearchCharactersCollectionsByUserName.apiURL (userName : String) : String :=
  Sprintf "https://api.bgm.tv/v0/users/%s/collections/-/characters" [.str userName]

/-- The function `SearchCharactersCollectionsByUserName` of `api_collections.go`, documented there with
the API path `/v0/users/{username}/collections/ - /characters`. -/
def SearchCharactersCollectionsByUserName (g : Globals) (userName : String)
    (client : Client) : Result (Option Bytes) :=
  let apiURL := SearchCharactersCollectionsByUserName.apiURL userName
  returnJson (getJsonDataFromURL g "GET" apiURL "" client)

/-- The `apiURL` of `SearchCharactersCollectionsByUserNameAndID`. -/
def SearchCharactersCollectionsByUserNameAndID.apiURL (userName chrID : String) : String :=
  Sprintf "https://api.bgm.tv/v0/users/%s/collections/-/characters/%s" [.str userName, .str chrID]

/-- The function `SearchCharactersCollectionsByUserNameAndID` of `api_collections.go`, documented there with
the API path `/v0/users/{username}/collections/ - /characters/{character_id}`. -/
def SearchCharactersCollectionsByUserNameAndID (g : Globals) (userName chrID : String)
    (client : Client) : Result (Option Bytes) :=
  let apiURL := SearchCharactersCollectionsByUserNameAndID.apiURL userName chrID
  returnJson (getJsonDataFromURL g "GET" apiURL "" client)

/-- The `apiURL` of `SearchPersonsCollectionsByUserName`. -/
def SearchPersonsCollectionsByUserName.apiURL (userName : String) : String :=
  Sprintf "https://api.bgm.tv/v0/users/%s/collections/-/persons" [.str userName]

/-- The function `SearchPersonsCollectionsByUserName` of `api_collections.go`, documented there with
the API path `/v0/users/{username}/collections/ - /persons`. -/
def SearchPersonsCollectionsByUserName (g : Globals) (userName : String)
    (client : Client) : Result (Option Bytes) :=
  let apiURL := SearchPersonsCollectionsByUserName.apiURL userName
  returnJson (getJsonDataFromURL g "GET" apiURL "" client)

/-- The `apiURL` of `SearchPersonsCollectionsByUserNameAndID`. -/
def SearchPersonsCollectionsByUserNameAndID.apiURL (userName perID : String) : String :=
  Sprintf "https://api.bgm.tv/v0/users/%s/collections/-/persons/%s" [.str userName, .str perID]

/-- The function `SearchPersonsCollectionsByUserNameAndID` of `api_collections.go`, documented there with
the API path `/v0/users/{username}/collections/ - /persons/{person_id}`. -/
def SearchPersonsCollectionsByUserNameAndID (g : Globals) (userName perID : String)
    (client : Client) : Result (Option Bytes) :=
  let apiURL := SearchPersonsCollectionsByUserNameAndID.apiURL userName perID
  returnJson (getJsonDataFromURL g "GET" apiURL "" client)

/-! ### api_episodes.go -/

/-- The `apiURL` of `SearchEpisodesByEpisodesId`. -/
def SearchEpisodesByEpisodesId.apiURL (epiID : String) : String :=
  let baseURL := "https://api.bgm.tv/v0/episodes/"
  Sprintf "%s%s" [.str baseURL, .str epiID]

/-- The function `SearchEpisodesByEpisodesId` of `api_episodes.go`, documented there with
the API path `/v0/episodes/{episode_id}`. -/
def SearchEpisodesByEpisodesId (g : Globals) (epiID : String)
    (client : Client) : Result (Option Bytes) :=
  let apiURL := SearchEpisodesByEpisodesId.apiURL epiID
  returnJson (getJsonDataFromURL g "GET" apiURL "" client)

/-! ### api_indices.go -/

/-- The `apiURL` of `SetIndices`. -/
def SetIndices.apiURL : String := "https://api.bgm.tv/v0/indices"

/-- The function `SetIndices` of `api_indices.go`, documented there with
the API path `/v0/persons/{person_id}`. -/
def SetIndices (g : Globals) (client : Client) : Result (Option Bytes) :=
  let apiURL := SetIndices.apiURL
  returnJson (getJsonDataFromURL g "POST" apiURL "" client)

/-- The `apiURL` of `GetIndicesByID`. -/
def GetIndicesByID.apiURL (idxID : String) : String :=
  let baseURL := "https://api.bgm.tv/v0/indices/"
  Sprintf "%s%s" [.str baseURL, .str idxID]

/-- The function `GetIndicesByID` of `api_indices.go`, documented there with
the API path `/v0/indices/{index_id}`. -/
def GetIndicesByID (g : Globals) (idxID : String)
    (client : Client) : Result (Option Bytes) :=
  let apiURL := GetIndicesByID.apiURL idxID
  returnJson (getJsonDataFromURL g "GET" apiURL "" client)

/-- The `apiURL` of `EditIndicesInformationByIDAndRequestBody`. -/
def EditIndicesInformationByIDAndRequestBody.apiURL (idxID : String) : String :=
  let baseURL := "https://api.bgm.tv/v0/indices/"
  Sprintf "%s%s" [.str baseURL, .str idxID]

/-- The function `EditIndicesInformationByIDAndRequestBody` of `api_indices.go`, documented there with
the API path `/v0/indices/{index_id}`. -/
def EditIndicesInformationByIDAndRequestBody (g : Globals) (idxID requestBody : String)
    (client : Client) : Result (Option Bytes) :=
  let apiURL := EditIndicesInformationByIDAndRequestBody.apiURL idxID
  returnJson (getJsonDataFromURL g "PUT" apiURL requestBody client)

/-- The `apiURL` of `AddSubjectsToIndicesByIDAndRequestBody`. -/
def AddSubjectsToIndicesByIDAndRequestBody.apiURL (idxID : String) : String :=
  Sprintf "https://api.bgm.tv/v0/indices/%s/subjects" [.str idxID]

/-- The function `AddSubjectsToIndicesByIDAndRequestBody` of `api_indices.go`, documented there with
the API path `/v0/indices/{index_id}/subjects`. -/
def AddSubjectsToIndicesByIDAndRequestBody (g : Globals) (idxID requestBody : String)
    (client : Client) : Result Bool :=
  let apiURL := AddSubjectsToIndicesByIDAndRequestBody.apiURL idxID
  returnBool (getBoolDataFromURL g "POST" apiURL requestBody client)

/-- The `apiURL` of `EditSubjectsInformationInIndiesByIDAndRequestBody`. -/
def EditSubjectsInformationInIndiesByIDAndRequestBody.apiURL (idxID subID : String) : String :=
  Sprintf "https://api.bgm.tv/v0/indices/%s/subjects/%s" [.str idxID, .str subID]

/-- The function `EditSubjectsInformationInIndiesByIDAndRequestBody` of `api_indices.go`, documented there with
the API path `/v0/indices/{index_id}/subjects/{subject_id}`. -/
def EditSubjectsInformationInIndiesByIDAndRequestBody (g : Globals) (idxID subID requestBody : String)
    (client : Client) : Result Bool :=
  let apiURL := EditSubjectsInformationInIndiesByIDAndRequestBody.apiURL idxID subID
  returnBool (getBoolDataFromURL g "PUT" apiURL requestBody client)

/-- The `apiURL` of `DeleteSubjectsFromIndicesByID`. -/
def DeleteSubjectsFromIndicesByID.apiURL (idxID subID : String) : String :=
  Sprintf "https://api.bgm.tv/v0/indices/%s/subjects/%s" [.str idxID, .str subID]

/-- The function `DeleteSubjectsFromIndicesByID` of `api_indices.go`, documented there with
the API path `/v0/indices/{index_id}/subjects/{subject_id}`. -/
def DeleteSubjectsFromIndicesByID (g : Globals) (idxID subID : String)
    (client : Client) : Result Bool :=
  let apiURL := DeleteSubjectsFromIndicesByID.apiURL idxID subID
  returnBool (getBoolDataFromURL g "DELETE" apiURL "" client)

/-- The `apiURL` of `CollectIndicesForCurrentUserByID`. -/
def CollectIndicesForCurrentUserByID.apiURL (idxID : String) : String :=
  Sprintf "https://api.bgm.tv/v0/indices/%s/collect" [.str idxID]

/-- The function `CollectIndicesForCurrentUserByID` of `api_indices.go`, documented there with
the API path `/v0/indices/{index_id}/collect`. -/
def CollectIndicesForCurrentUserByID (g : Globals) (idxID : String)
    (client : Client) : Result Bool :=
  let apiURL := CollectIndicesForCurrentUserByID.apiURL idxID
  returnBool (getBoolDataFromURL g "POST" apiURL "" client)

/-- The `apiURL` of `DeleteCollectIndicesForCurrentUserByID`. -/
def DeleteCollectIndicesForCurrentUserByID.apiURL (idxID : String) : String :=
  Sprintf "https://api.bgm.tv/v0/indices/%s/collect" [.str idxID]

/-- The function `DeleteCollectIndicesForCurrentUserByID` of `api_indices.go`, documented there with
the API path `/v0/indices/{index_id}/collect`. -/
def DeleteCollectIndicesForCurrentUserByID (g : Globals) (idxID : String)
    (client : Client) : Result Bool :=
  let apiURL := DeleteCollectIndicesForCurrentUserByID.apiURL idxID
  returnBool (getBoolDataFromURL g "DELETE" apiURL "" client)

/-! ### api_persons.go -/

/-- The `apiURL` of `SearchPersonsById`. -/
def SearchPersonsById.apiURL (perID : String) : String :=
  let baseURL := "https://api.bgm.tv/v0/persons/"
  Sprintf "%s%s" [.str baseURL, .str perID]

/-- The function `SearchPersonsById` of `api_persons.go`, documented there with
the API path `/v0/persons/{person_id}`. -/
def SearchPersonsById (g : Globals) (perID : String)
    (client : Client) : Result (Option Bytes) :=
  let apiURL := SearchPersonsById.apiURL perID
  returnJson (getJsonDataFromURL g "GET" apiURL "" client)

/-- The `apiURL` of `SetCollectPersonsById`. -/
def SetCollectPersonsById.apiURL (perID : String) : String :=
  Sprintf "https://api.bgm.tv/v0/persons/%s/collect" [.str perID]

/-- The function `SetCollectPersonsById` of `api_persons.go`, documented there with
the API path `/v0/persons/{person_id}/collect`. -/
def SetCollectPersonsById (g : Globals) (perID : String)
    (client : Client) : Result Bool :=
  let apiURL := SetCollectPersonsById.apiURL perID
  returnBool (getBoolDataFromURL g "POST" apiURL "" client)

/-- The `apiURL` of `DeleteCollectPersonsById`. -/
def DeleteCollectPersonsById.apiURL (perID : String) : String :=
  Sprintf "https://api.bgm.tv/v0/persons/%s/collect/" [.str perID]

/-- The function `DeleteCollectPersonsById` of `api_persons.go`, documented there with
the API path `/v0/persons/{person_id}/collect`. -/
def DeleteCollectPersonsById (g : Globals) (perID : String)
    (client : Client) : Result Bool :=
  let apiURL := DeleteCollectPersonsById.apiURL perID
  returnBool (getBoolDataFromURL g "DELETE" apiURL "" client)

/-! ### api_revisions.go -/

/-- The `apiURL` of `SearchPersonsRevisionsByRevisionsId`. -/
def SearchPersonsRevisionsByRevisionsId.apiURL (revID : String) : String :=
  let baseURL := "https://api.bgm.tv/v0/revisions/persons/"
  Sprintf "%s%s" [.str baseURL, .str revID]

/-- The function `SearchPersonsRevisionsByRevisionsId` of `api_revisions.go`, documented there with
the API path `/v0/revisions/persons/{revision_id}`. -/
def SearchPersonsRevisionsByRevisionsId (g : Globals) (revID : String)
    (client : Client) : Result (Option Bytes) :=
  let apiURL := SearchPersonsRevisionsByRevisionsId.apiURL revID
  returnJson (getJsonDataFromURL g "GET" apiURL "" client)

/-- The `apiURL` of `SearchCharactersRevisionsByRevisionsId`. -/
def SearchCharactersRevisionsByRevisionsId.apiURL (revID : String) : String :=
  let baseURL := "https://api.bgm.tv/v0/revisions/characters/"
  Sprintf "%s%s" [.str baseURL, .str revID]

/-- The function `SearchCharactersRevisionsByRevisionsId` of `api_revisions.go`, documented there with
the API path `/v0/revisions/characters/{revision_id}`. -/
def SearchCharactersRevisionsByRevisionsId (g : Globals) (revID : String)
    (client : Client) : Result (Option Bytes) :=
  let apiURL := SearchCharactersRevisionsByRevisionsId.apiURL revID
  returnJson (getJsonDataFromURL g "GET" apiURL "" client)

/-- The `apiURL` of `SearchSubjectsRevisionsByRevisionsId`. -/
def SearchSubjectsRevisionsByRevisionsId.apiURL (revID : String) : String :=
  let baseURL := "https://api.bgm.tv/v0/revisions/subjects/"
  Sprintf "%s%s" [.str baseURL, .str revID]

/-- The function `SearchSubjectsRevisionsByRevisionsId` of `api_revisions.go`, documented there with
the API path `/v0/revisions/subjects/{revision_id}`. -/
def SearchSubjectsRevisionsByRevisionsId (g : Globals) (revID : String)
    (client : Client) : Result (Option Bytes) :=
  let apiURL := SearchSubjectsRevisionsByRevisionsId.apiURL revID
  returnJson (getJsonDataFromURL g "GET" apiURL "" client)

/-- The `apiURL` of `SearchEpisodesRevisionsByRevisionsId`. -/
def SearchEpisodesRevisionsByRevisionsId.apiURL (revID : String) : String :=
  let baseURL := "https://api.bgm.tv/v0/revisions/episodes/"
  Sprintf "%s%s" [.str baseURL, .str revID]

/-- The function `SearchEpisodesRevisionsByRevisionsId` of `api_revisions.go`, documented there with
the API path `/v0/revisions/episodes/{revision_id}`. -/
def SearchEpisodesRevisionsByRevisionsId (g : Globals) (revID : String)
    (client : Client) : Result (Option Bytes) :=
  let apiURL := SearchEpisodesRevisionsByRevisionsId.apiURL revID
  returnJson (getJsonDataFromURL g "GET" apiURL "" client)

/-! ### api_subjects.go -/

/-- The `apiURL` of `GetCalender`. -/
def GetCalender.apiURL : String := "https://api.bgm.tv/calendar"

/-- The function `GetCalender` of `api_subjects.go`, documented there with
the API path `/calendar`. -/
def GetCalender (g : Globals) (client : Client) : Result (Option Bytes) :=
  let apiURL := GetCalender.apiURL
  returnJson (getJsonDataFromURL g "GET" apiURL "" client)

/-! ### api_user.go -/

/-- The `apiURL` of `SearchUserNameByName`. -/
def SearchUserNameByName.apiURL (userName : String) : String :=
  let baseURL := "https://api.bgm.tv/v0/users/"
  Sprintf "%s%s" [.str baseURL, .str userName]

/-- The function `SearchUserNameByName` of `api_user.go`, documented there with
the API path `/v0/users/{username}`. -/
def SearchUserNameByName (g : Globals) (userName : String)
    (client : Client) : Result (Option Bytes) :=
  let apiURL := SearchUserNameByName.apiURL userName
  returnJson (getJsonDataFromURL g "GET" apiURL "" client)

/-- The `apiURL` of `GetMe`. -/
def GetMe.apiURL : String := "https://api.bgm.tv/v0/me"

/-- The function `GetMe` of `api_user.go`, documented there with
the API path `/v0/me`. -/
def GetMe (g : Globals) (client : Client) : Result (Option Bytes) :=
  let apiURL := GetMe.apiURL
  returnJson (getJsonDataFromURL g "GET" apiURL "" client)

/-! ## The enum tables of the specification -/

/-- The subject-type table of the specification. -/
def Spec.subjectTypes : List (String × Int) :=
  [("书籍", 1), ("动漫", 2), ("音乐", 3), ("游戏", 4), ("三次元", 6)]

/-- The collection-type (watch status) table of the specification. -/
def Spec.collectionTypes : List (String × Int) :=
  [("想看", 1), ("看过", 2), ("在看", 3), ("搁置", 4), ("抛弃", 5)]

/-- The episode-type table of the specification. -/
def Spec.episodeTypes : List (String × Int) :=
  [("本篇", 0), ("特别篇", 1), ("OP", 2), ("ED", 3), ("预告/宣传/广告", 4), ("MAD", 5),
    ("其他", 6)]

/-- The code of `name` in a table of the specification, `dflt` when the table
has no row for it. -/
def Spec.code : List (String × Int) → Int → String → Int
  | [], dflt, _ => dflt
  | (k, c) :: rest, dflt, name => if name = k then c else Spec.code rest dflt name

/-- Whether a URL may hold the character as it is: the unreserved and the
reserved characters of RFC 3986.  Every other character, a space or a non-ASCII
character among them, requires escaping. -/
def urlChar (c : Char) : Bool :=
  c.toNat < 0x80 &&
    (isAlnum c.toNat || "-._~:/?#[]@!$&()*+,;=".data.contains c || c.toNat == 39)

/-- The scan behind `fullyEncoded`: `due` is the number of hex digits still due
after a `%`. -/
def fullyEncoded.go : Nat → List Char → Bool
  | due, [] => due == 0
  | 0, c :: rest => if c = '%' then fullyEncoded.go 2 rest else urlChar c && fullyEncoded.go 0 rest
  | due + 1, c :: rest => ishex c.toNat && fullyEncoded.go due rest

/-- The string is fully percent-encoded: every `%` in it is followed by two
hexadecimal digits, and every other character is one a URL may hold as it is. -/
def fullyEncoded (s : String) : Bool := fullyEncoded.go 0 s.data

/-- The string `s` begins with the string `p`. -/
def beginsWith (s p : String) : Prop := p.data <+: s.data

instance (s p : String) : Decidable (beginsWith s p) :=
  inferInstanceAs (Decidable (p.data <+: s.data))

/-! ## Lemmas on the library model -/

theorem Sprintf_s (a : String) : Sprintf "%s" [.str a] = a := by
  simp [Sprintf, Sprintf.go, formatVerb, Sprintf.extra]

theorem Sprintf_d (i : Int) : Sprintf "%d" [.int i] = Itoa i := by
  simp [Sprintf, Sprintf.go, formatVerb, Sprintf.extra]

theorem Sprintf_s_s (a b : String) : Sprintf "%s%s" [.str a, .str b] = a ++ b := by
  simp [Sprintf, Sprintf.go, formatVerb, Sprintf.extra]

theorem Sprintf_s_q_s (a b : String) : Sprintf "%s?%s" [.str a, .str b] = a ++ "?" ++ b := by
  simp [Sprintf, Sprintf.go, formatVerb, Sprintf.extra]
  apply String.ext; simp

theorem buildRequest_eq_some {method url requestBody : String} {req : Request}
    (h : buildRequest method url requestBody = some req) :
    req.URL = url ∧ req.Header = [] ∧
      req.Method = (if method = "" then "GET" else method) ∧
      req.Body = (if (bytes requestBody).length = 0 then none else some (bytes requestBody)) := by
  unfold buildRequest NewRequest at h
  split_ifs at h <;> simp at h <;> obtain ⟨_, rfl⟩ := h <;> simp_all

theorem buildRequest_GET (url : String) (h : Parse url = true) :
    buildRequest "GET" url "" = some ⟨"GET", url, none, []⟩ := by
  have hm : validMethod "GET" = true := by decide
  have hb : (bytes "").length = 0 := by decide
  simp [buildRequest, NewRequest, hm, hb, h]

theorem buildRequest_GET_none (url : String) (h : Parse url = false) :
    buildRequest "GET" url "" = none := by
  have hm : validMethod "GET" = true := by decide
  have hb : (bytes "").length = 0 := by decide
  simp [buildRequest, NewRequest, hm, hb, h]

theorem QueryEscape_limit : QueryEscape "limit" = "limit" := by decide

theorem QueryEscape_offset : QueryEscape "offset" = "offset" := by decide

theorem QueryEscape_type : QueryEscape "type" = "type" := by decide

theorem QueryEscape_subject_type : QueryEscape "subject_type" = "subject_type" := by decide

theorem QueryEscape_episode_type : QueryEscape "episode_type" = "episode_type" := by decide

theorem QueryEscape_subject_id : QueryEscape "subject_id" = "subject_id" := by decide

theorem QueryEscape_person_id : QueryEscape "person_id" = "person_id" := by decide

theorem QueryEscape_character_id : QueryEscape "character_id" = "character_id" := by decide

theorem QueryEscape_episode_id : QueryEscape "episode_id" = "episode_id" := by decide

theorem QueryEscape_responseGroup : QueryEscape "responseGroup" = "responseGroup" := by decide

theorem QueryEscape_start : QueryEscape "start" = "start" := by decide

theorem QueryEscape_max_results : QueryEscape "max_results" = "max_results" := by decide

theorem QueryEscape_Itoa_code (n : Int) (h : n ∈ [0, 1, 2, 3, 4, 5, 6]) :
    QueryEscape (Itoa n) = Itoa n := by
  simp at h
  rcases h with rfl | rfl | rfl | rfl | rfl | rfl | rfl <;> decide

theorem returnJson_sent (r : Result (Option Bytes)) : (returnJson r).sent = r.sent := by
  unfold returnJson; split <;> rfl

theorem getJsonDataFromURL_sent (g : Globals) {method url requestBody : String}
    (client : Client) {req : Request} (h : buildRequest method url requestBody = some req) :
    (getJsonDataFromURL g method url requestBody client).sent = [setHeaders g req] := by
  simp only [getJsonDataFromURL, h]
  split
  · rfl
  · split
    · rfl
    · split <;> rfl

theorem returnBool_sent (r : Result Unit) : (returnBool r).sent = r.sent := by
  unfold returnBool; split <;> rfl

theorem getBoolDataFromURL_sent (g : Globals) {method url requestBody : String}
    (client : Client) {req : Request} (h : buildRequest method url requestBody = some req) :
    (getBoolDataFromURL g method url requestBody client).sent = [setHeaders g req] := by
  simp only [getBoolDataFromURL, h]
  split
  · rfl
  · split <;> rfl

theorem buildRequest_no_body (method url : String) (hm : validMethod method = true)
    (hne : method ≠ "") (h : Parse url = true) :
    buildRequest method url "" = some ⟨method, url, none, []⟩ := by
  have hb : (bytes "").length = 0 := by decide
  simp [buildRequest, NewRequest, hm, hb, h, hne]

theorem buildRequest_rejected (method url requestBody : String) (h : Parse url = false) :
    buildRequest method url requestBody = none := by
  unfold buildRequest NewRequest
  split_ifs <;> simp_all

theorem setHeaders_new (g : Globals) (method url : String) (body : Option Bytes) :
    setHeaders g ⟨method, url, body, []⟩ =
      ⟨method, url, body,
        [("Content-Type", "application/json"), ("Authorization", "Bearer " ++ g.Token),
          ("User-Agent", g.UserAgent)]⟩ := by
  simp [setHeaders, Header.Set]

theorem isAlnum_lt (c : Nat) (h : isAlnum c = true) : c < 128 := by
  simp [isAlnum, byte] at h
  omega

theorem shouldEscape_query_lt (c : Nat) (h : shouldEscape c encodeQueryComponent = false) :
    c < 128 := by
  by_contra hc
  have h1 : isAlnum c = false := by
    cases h' : isAlnum c
    · rfl
    · exact absurd (isAlnum_lt c h') hc
  simp [shouldEscape, h1, byte] at h
  omega

theorem shouldEscape_query_small :
    ∀ c < 128, shouldEscape c encodeQueryComponent = false →
      (Char.ofNat c ≠ '%' ∧ Char.ofNat c ≠ '&' ∧ Char.ofNat c ≠ '=' ∧
        urlChar (Char.ofNat c) = true) := by
  decide

theorem upperhex_mem (n : Nat) : upperhex n ∈ "0123456789ABCDEF".data := by
  unfold upperhex
  by_cases h : n < 16
  · interval_cases n <;> decide
  · have : "0123456789ABCDEF".data.length ≤ n := by
      have : "0123456789ABCDEF".data.length = 16 := by decide
      omega
    rw [List.getD_eq_default _ _ this]
    decide

theorem upperhex_facts (n : Nat) :
    ishex (upperhex n).toNat = true ∧ upperhex n ≠ '&' ∧ upperhex n ≠ '=' := by
  have h : ∀ c ∈ "0123456789ABCDEF".data, ishex c.toNat = true ∧ c ≠ '&' ∧ c ≠ '=' := by decide
  exact h _ (upperhex_mem n)

theorem fullyEncoded_go_append (a b : List Char) (due : Nat)
    (ha : fullyEncoded.go due a = true) (hb : fullyEncoded.go 0 b = true) :
    fullyEncoded.go due (a ++ b) = true := by
  induction a generalizing due with
  | nil =>
    simp [fullyEncoded.go] at ha
    subst ha
    simpa using hb
  | cons c rest ih =>
    cases due with
    | zero =>
      simp only [fullyEncoded.go, List.cons_append] at ha ⊢
      split_ifs at ha ⊢ with hc
      · exact ih 2 ha
      · simp only [Bool.and_eq_true] at ha ⊢
        exact ⟨ha.1, ih 0 ha.2⟩
    | succ n =>
      simp only [fullyEncoded.go, List.cons_append, Bool.and_eq_true] at ha ⊢
      exact ⟨ha.1, ih n ha.2⟩

theorem fullyEncoded_append {a b : String} (ha : fullyEncoded a = true)
    (hb : fullyEncoded b = true) : fullyEncoded (a ++ b) = true := by
  unfold fullyEncoded at *
  rw [String.data_append]
  exact fullyEncoded_go_append _ _ 0 ha hb

theorem escape_query_data (s : String) :
    (QueryEscape s).data = (bytes s).flatMap fun c =>
      if shouldEscape c encodeQueryComponent then
        if c = byte ' ' then ['+'] else ['%', upperhex (c >>> 4), upperhex (c &&& 15)]
      else [Char.ofNat c] := by
  simp [QueryEscape, escape]

theorem fullyEncoded_QueryEscape (s : String) : fullyEncoded (QueryEscape s) = true := by
  unfold fullyEncoded
  rw [escape_query_data]
  induction bytes s with
  | nil => rfl
  | cons c rest ih =>
    rw [List.flatMap_cons]
    refine fullyEncoded_go_append _ _ 0 ?_ ih
    by_cases h : shouldEscape c encodeQueryComponent = true
    · by_cases hs : c = byte ' '
      · simp [h, hs, fullyEncoded.go]; decide
      · simp [h, hs, fullyEncoded.go, (upperhex_facts _).1]
    · have h' : shouldEscape c encodeQueryComponent = false := by simpa using h
      have hf := shouldEscape_query_small c (shouldEscape_query_lt c h') h'
      simp [h', fullyEncoded.go, hf.1, hf.2.2.2]

theorem QueryEscape_no_separator (s : String) :
    '&' ∉ (QueryEscape s).data ∧ '=' ∉ (QueryEscape s).data := by
  rw [escape_query_data]
  induction bytes s with
  | nil => simp
  | cons c rest ih =>
    rw [List.flatMap_cons]
    simp only [List.mem_append, not_or]
    by_cases h : shouldEscape c encodeQueryComponent = true
    · by_cases hs : c = byte ' '
      · have hsp : shouldEscape (byte ' ') encodeQueryComponent = true := by decide
        simp [hs, hsp, ih.1, ih.2]
      · have h1 := upperhex_facts (c >>> 4)
        have h2 := upperhex_facts (c &&& 15)
        simp [h, hs, ih.1, ih.2, Ne.symm h1.2.1, Ne.symm h1.2.2, Ne.symm h2.2.1, Ne.symm h2.2.2]
    · have h' : shouldEscape c encodeQueryComponent = false := by simpa using h
      have hf := shouldEscape_query_small c (shouldEscape_query_lt c h') h'
      simp [h', ih.1, ih.2, Ne.symm hf.2.1, Ne.symm hf.2.2.1]

theorem beginsWith_append_left {a p : String} (b : String) (h : beginsWith a p) :
    beginsWith (a ++ b) p := by
  obtain ⟨t, ht⟩ := h
  exact ⟨t ++ b.data, by simp [← ht]⟩

theorem bytes_length_eq_zero (s : String) : (bytes s).length = 0 ↔ s = "" := by
  constructor
  · intro h
    apply String.ext
    have hb : bytes s = [] := List.length_eq_zero.mp h
    unfold bytes at hb
    rw [List.flatMap_eq_nil_iff] at hb
    cases hd : s.data with
    | nil => rfl
    | cons c rest =>
      have := hb c (by simp [hd])
      have hl := congrArg List.length this
      simp [String.length_utf8EncodeChar] at hl
      have := Char.utf8Size_pos c
      omega
  · rintro rfl
    decide

theorem NewRequest_eq_some {method url : String} {body : Option Bytes} {req : Request}
    (h : NewRequest method url body = some req) :
    req.Method = (if method = "" then "GET" else method) ∧ req.URL = url ∧ req.Body = body ∧
      req.Header = [] := by
  unfold NewRequest at h
  by_cases hm : method = "" <;> simp [hm] at h <;> obtain ⟨_, _, h⟩ := h <;> subst h <;>
    simp [hm]

theorem buildRequest_eq_NewRequest (method url requestBody : String) :
    buildRequest method url requestBody =
      NewRequest method url (if requestBody = "" then none else some (bytes requestBody)) := by
  unfold buildRequest
  by_cases he : requestBody = ""
  · simp [he, (bytes_length_eq_zero "").mpr rfl]
  · have : ¬ (bytes requestBody).length = 0 := fun h0 =>
      he ((bytes_length_eq_zero requestBody).mp h0)
    simp [he, this]

/-! ## Closed forms of the endpoint URLs -/

theorem SearchCollectionsByUserName_apiURL_eq (userName : String) (sType tType : Int)
    (limit offset : String) :
    SearchCollectionsByUserName.apiURL userName sType tType limit offset =
      "https://api.bgm.tv/v0/users/" ++ userName ++ "/collections?limit=" ++
        QueryEscape limit ++ "&offset=" ++ QueryEscape offset ++ "&subject_type=" ++
        QueryEscape (Itoa sType) ++ "&type=" ++ QueryEscape (Itoa tType) := by
  have hs : sortStrings ["subject_type", "type", "limit", "offset"] =
      ["limit", "offset", "subject_type", "type"] := by decide
  simp +decide [SearchCollectionsByUserName.apiURL, Values.Encode, Values.Add, Values.get,
    Values.empty, hs, Sprintf_s, Sprintf_d, QueryEscape_limit, QueryEscape_offset,
    QueryEscape_type, QueryEscape_subject_type, Sprintf, Sprintf.go, formatVerb,
    Sprintf.extra]
  apply String.ext; simp

theorem SearchUsersCollectionsEpisodesBySubjectsID_apiURL_eq (subID offset limit : String)
    (sType : Int) :
    SearchUsersCollectionsEpisodesBySubjectsID.apiURL subID offset limit sType =
      "https://api.bgm.tv/v0/users/-/collections/" ++ subID ++
        "/episodes?%!(EXTRA string=episode_type=" ++ QueryEscape (Itoa sType) ++
        "&limit=" ++ QueryEscape limit ++ "&offset=" ++ QueryEscape offset ++ ")" := by
  have hs : sortStrings ["episode_type", "limit", "offset"] =
      ["episode_type", "limit", "offset"] := by decide
  simp +decide [SearchUsersCollectionsEpisodesBySubjectsID.apiURL, Values.Encode, Values.Add,
    Values.get, Values.empty, hs, Sprintf_s, Sprintf_d, QueryEscape_limit, QueryEscape_offset,
    QueryEscape_episode_type, Sprintf, Sprintf.go, formatVerb, Sprintf.extra, Arg.typeName,
    Arg.value, String.intercalate, String.intercalate.go]
  apply String.ext; simp

theorem limit_offset_Encode (limit offset : String) :
    Values.Encode ((Values.empty.Add "limit" limit).Add "offset" offset) =
      "limit=" ++ QueryEscape limit ++ "&offset=" ++ QueryEscape offset := by
  have hs : sortStrings ["limit", "offset"] = ["limit", "offset"] := by decide
  simp +decide [Values.Encode, Values.Add, Values.get, Values.empty, hs, QueryEscape_limit,
    QueryEscape_offset]
  apply String.ext; simp

theorem SearchSubjectsByName_apiURL_eq (limit offset : String) :
    SearchSubjectsByName.apiURL limit offset =
      "https://api.bgm.tv/v0/search/subjects?limit=" ++ QueryEscape limit ++ "&offset=" ++
        QueryEscape offset := by
  simp only [SearchSubjectsByName.apiURL, Sprintf_s, Sprintf_s_q_s, limit_offset_Encode]
  apply String.ext; simp

theorem SearchCharactersByName_apiURL_eq (limit offset : String) :
    SearchCharactersByName.apiURL limit offset =
      "https://api.bgm.tv/v0/search/characters?limit=" ++ QueryEscape limit ++ "&offset=" ++
        QueryEscape offset := by
  simp only [SearchCharactersByName.apiURL, Sprintf_s, Sprintf_s_q_s, limit_offset_Encode]
  apply String.ext; simp

theorem SearchPersonsByName_apiURL_eq (limit offset : String) :
    SearchPersonsByName.apiURL limit offset =
      "https://api.bgm.tv/v0/search/persons?limit=" ++ QueryEscape limit ++ "&offset=" ++
        QueryEscape offset := by
  simp only [SearchPersonsByName.apiURL, Sprintf_s, Sprintf_s_q_s, limit_offset_Encode]
  apply String.ext; simp

theorem SearchSubjectsById_apiURL_eq (subID : String) :
    SearchSubjectsById.apiURL subID = "https://api.bgm.tv/v0/subjects/" ++ subID := by
  simp only [SearchSubjectsById.apiURL, Sprintf_s_s]

theorem SearchAllSubjectsByName_apiURL_eq (keyWord : String) (sType : Int)
    (responseGroup start nmaxResults : String) :
    SearchAllSubjectsByName.apiURL keyWord sType responseGroup start nmaxResults =
      "https://api.bgm.tv/search/subject/" ++ keyWord ++ "?max_results=" ++
        QueryEscape nmaxResults ++ "&responseGroup=" ++ QueryEscape responseGroup ++
        "&start=" ++ QueryEscape start ++ "&type=" ++ QueryEscape (Itoa sType) := by
  have hs : sortStrings ["type", "responseGroup", "start", "max_results"] =
      ["max_results", "responseGroup", "start", "type"] := by decide
  simp +decide [SearchAllSubjectsByName.apiURL, Values.Encode, Values.Add, Values.get,
    Values.empty, hs, Sprintf_s, Sprintf_d, QueryEscape_max_results,
    QueryEscape_responseGroup, QueryEscape_start, QueryEscape_type, Sprintf, Sprintf.go,
    formatVerb, Sprintf.extra]
  apply String.ext; simp

theorem GetIndicesSubjectByID_apiURL_eq (idxID : String) (sType : Int)
    (limit offset : String) :
    GetIndicesSubjectByID.apiURL idxID sType limit offset =
      "https://api.bgm.tv/v0/indices/" ++ idxID ++ "/subjects?limit=" ++ QueryEscape limit ++
        "&offset=" ++ QueryEscape offset ++ "&type=" ++ QueryEscape (Itoa sType) := by
  have hs : sortStrings ["type", "limit", "offset"] = ["limit", "offset", "type"] := by decide
  simp +decide [GetIndicesSubjectByID.apiURL, Values.Encode, Values.Add, Values.get,
    Values.empty, hs, Sprintf_s, Sprintf_d, QueryEscape_limit, QueryEscape_offset,
    QueryEscape_type, Sprintf, Sprintf.go, formatVerb, Sprintf.extra]
  apply String.ext; simp

theorem SearchEpisodesByEpisodesName_apiURL_eq (sbjID : String) (sType : Int)
    (limit offset : String) :
    SearchEpisodesByEpisodesName.apiURL sbjID sType limit offset =
      "https://api.bgm.tv/v0/episodes?limit=" ++ QueryEscape limit ++ "&offset=" ++
        QueryEscape offset ++ "&subject_id=" ++ QueryEscape sbjID ++ "&type=" ++
        QueryEscape (Itoa sType) := by
  have hs : sortStrings ["subject_id", "type", "limit", "offset"] =
      ["limit", "offset", "subject_id", "type"] := by decide
  simp +decide [SearchEpisodesByEpisodesName.apiURL, Values.Encode, Values.Add, Values.get,
    Values.empty, hs, Sprintf_s, Sprintf_d, QueryEscape_limit, QueryEscape_offset,
    QueryEscape_type, QueryEscape_subject_id, Sprintf, Sprintf.go, formatVerb, Sprintf.extra]
  apply String.ext; simp

theorem SearchPersonsRevisionsById_apiURL_eq (perID limit offset : String) :
    SearchPersonsRevisionsById.apiURL perID limit offset =
      "https://api.bgm.tv/v0/revisions/persons?limit=" ++ QueryEscape limit ++ "&offset=" ++
        QueryEscape offset ++ "&person_id=" ++ QueryEscape perID := by
  have hs : sortStrings ["person_id", "limit", "offset"] = ["limit", "offset", "person_id"] := by
    decide
  simp +decide [SearchPersonsRevisionsById.apiURL, Values.Encode, Values.Add, Values.get,
    Values.empty, hs, Sprintf_s, QueryEscape_limit, QueryEscape_offset, QueryEscape_person_id,
    Sprintf, Sprintf.go, formatVerb, Sprintf.extra]
  apply String.ext; simp

theorem SearchCharactersRevisionsById_apiURL_eq (chrID limit offset : String) :
    SearchCharactersRevisionsById.apiURL chrID limit offset =
      "https://api.bgm.tv/v0/revisions/characters?character_id=" ++ QueryEscape chrID ++
        "&limit=" ++ QueryEscape limit ++ "&offset=" ++ QueryEscape offset := by
  have hs : sortStrings ["character_id", "limit", "offset"] =
      ["character_id", "limit", "offset"] := by decide
  simp +decide [SearchCharactersRevisionsById.apiURL, Values.Encode, Values.Add, Values.get,
    Values.empty, hs, Sprintf_s, QueryEscape_limit, QueryEscape_offset,
    QueryEscape_character_id, Sprintf, Sprintf.go, formatVerb, Sprintf.extra]
  apply String.ext; simp

theorem SearchSubjectsRevisionsById_apiURL_eq (subID limit offset : String) :
    SearchSubjectsRevisionsById.apiURL subID limit offset =
      "https://api.bgm.tv/v0/revisions/subjects?limit=" ++ QueryEscape limit ++ "&offset=" ++
        QueryEscape offset ++ "&subject_id=" ++ QueryEscape subID := by
  have hs : sortStrings ["subject_id", "limit", "offset"] =
      ["limit", "offset", "subject_id"] := by decide
  simp +decide [SearchSubjectsRevisionsById.apiURL, Values.Encode, Values.Add, Values.get,
    Values.empty, hs, Sprintf_s, QueryEscape_limit, QueryEscape_offset,
    QueryEscape_subject_id, Sprintf, Sprintf.go, formatVerb, Sprintf.extra]
  apply String.ext; simp

theorem SearchEpisodesRevisionsById_apiURL_eq (epiID limit offset : String) :
    SearchEpisodesRevisionsById.apiURL epiID limit offset =
      "https://api.bgm.tv/v0/revisions/episodes?episode_id=" ++ QueryEscape epiID ++
        "&limit=" ++ QueryEscape limit ++ "&offset=" ++ QueryEscape offset := by
  have hs : sortStrings ["episode_id", "limit", "offset"] =
      ["episode_id", "limit", "offset"] := by decide
  simp +decide [SearchEpisodesRevisionsById.apiURL, Values.Encode, Values.Add, Values.get,
    Values.empty, hs, Sprintf_s, QueryEscape_limit, QueryEscape_offset,
    QueryEscape_episode_id, Sprintf, Sprintf.go, formatVerb, Sprintf.extra]
  apply String.ext; simp

/-! ## Closed forms of the URLs without a query string -/

theorem SearchCharactersById_apiURL_eq (chrID : String) :
    SearchCharactersById.apiURL chrID =
      "https://api.bgm.tv/v0/characters/" ++ chrID := by
  simp [SearchCharactersById.apiURL, Sprintf, Sprintf.go, formatVerb,
    Sprintf.extra]

theorem SetCollectCharactersById_apiURL_eq (chrID : String) :
    SetCollectCharactersById.apiURL chrID =
      "https://api.bgm.tv/v0/characters/" ++ chrID ++ "/collect" := by
  simp [SetCollectCharactersById.apiURL, Sprintf, Sprintf.go, formatVerb,
    Sprintf.extra]
  all_goals (apply String.ext; simp)

theorem DeleteCollectCharactersById_apiURL_eq (chrID : String) :
    DeleteCollectCharactersById.apiURL chrID =
      "https://api.bgm.tv/v0/characters/" ++ chrID ++ "/collect" := by
  simp [DeleteCollectCharactersById.apiURL, Sprintf, Sprintf.go, formatVerb,
    Sprintf.extra]
  all_goals (apply String.ext; simp)

theorem SearchCollectionsByID_apiURL_eq (userName subID : String) :
    SearchCollectionsByID.apiURL userName subID =
      "https://api.bgm.tv/v0/users/" ++ userName ++ "/collections/" ++ subID := by
  simp [SearchCollectionsByID.apiURL, Sprintf, Sprintf.go, formatVerb,
    Sprintf.extra]
  all_goals (apply String.ext; simp)

theorem AddOrEditCollectionsSubjectsInUsersByID_apiURL_eq (subID : String) :
    AddOrEditCollectionsSubjectsInUsersByID.apiURL subID =
      "https://api.bgm.tv/v0/users/-/collections/" ++ subID := by
  simp [AddOrEditCollectionsSubjectsInUsersByID.apiURL, Sprintf, Sprintf.go, formatVerb,
    Sprintf.extra]
  all_goals (apply String.ext; simp)

theorem EditCollectionsSubjectsInUsersByID_apiURL_eq (subID : String) :
    EditCollectionsSubjectsInUsersByID.apiURL subID =
      "https://api.bgm.tv/v0/users/-/collections/" ++ subID := by
  simp [EditCollectionsSubjectsInUsersByID.apiURL, Sprintf, Sprintf.go, formatVerb,
    Sprintf.extra]
  all_goals (apply String.ext; simp)

theorem GetCollectionsSubjectsEpisodesInfo_apiURL_eq (subID : String) :
    GetCollectionsSubjectsEpisodesInfo.apiURL subID =
      "https://api.bgm.tv/v0/users/-/collections/" ++ subID := by
  simp [GetCollectionsSubjectsEpisodesInfo.apiURL, Sprintf, Sprintf.go, formatVerb,
    Sprintf.extra]
  all_goals (apply String.ext; simp)

theorem SearchCollectionsEpisodesInfo_apiURL_eq (epiID : String) :
    SearchCollectionsEpisodesInfo.apiURL epiID =
      "https://api.bgm.tv/v0/users/-/collections/-/episodes/" ++ epiID := by
  simp [SearchCollectionsEpisodesInfo.apiURL, Sprintf, Sprintf.go, formatVerb,
    Sprintf.extra]
  all_goals (apply String.ext; simp)

theorem UpdateCollectionEpisodesInfo_apiURL_eq (epiID : String) :
    UpdateCollectionEpisodesInfo.apiURL epiID =
      "https://api.bgm.tv/v0/users/-/collections/-/episodes/" ++ epiID := by
  simp [UpdateCollectionEpisodesInfo.apiURL, Sprintf, Sprintf.go, formatVerb,
    Sprintf.extra]
  all_goals (apply String.ext; simp)

theorem SearchCharactersCollectionsByUserName_apiURL_eq (userName : String) :
    SearchCharactersCollectionsByUserName.apiURL userName =
      "https://api.bgm.tv/v0/users/" ++ userName ++ "/collections/-/characters" := by
  simp [SearchCharactersCollectionsByUserName.apiURL, Sprintf, Sprintf.go, formatVerb,
    Sprintf.extra]
  all_goals (apply String.ext; simp)

theorem SearchCharactersCollectionsByUserNameAndID_apiURL_eq (userName chrID : String) :
    SearchCharactersCollectionsByUserNameAndID.apiURL userName chrID =
      "https://api.bgm.tv/v0/users/" ++ userName ++ "/collections/-/characters/" ++ chrID := by
  simp [SearchCharactersCollectionsByUserNameAndID.apiURL, Sprintf, Sprintf.go, formatVerb,
    Sprintf.extra]
  all_goals (apply String.ext; simp)

theorem SearchPersonsCollectionsByUserName_apiURL_eq (userName : String) :
    SearchPersonsCollectionsByUserName.apiURL userName =
      "https://api.bgm.tv/v0/users/" ++ userName ++ "/collections/-/persons" := by
  simp [SearchPersonsCollectionsByUserName.apiURL, Sprintf, Sprintf.go, formatVerb,
    Sprintf.extra]
  all_goals (apply String.ext; simp)

theorem SearchPersonsCollectionsByUserNameAndID_apiURL_eq (userName perID : String) :
    SearchPersonsCollectionsByUserNameAndID.apiURL userName perID =
      "https://api.bgm.tv/v0/users/" ++ userName ++ "/collections/-/persons/" ++ perID := by
  simp [SearchPersonsCollectionsByUserNameAndID.apiURL, Sprintf, Sprintf.go, formatVerb,
    Sprintf.extra]
  all_goals (apply String.ext; simp)

theorem SearchEpisodesByEpisodesId_apiURL_eq (epiID : String) :
    SearchEpisodesByEpisodesId.apiURL epiID =
      "https://api.bgm.tv/v0/episodes/" ++ epiID := by
  simp [SearchEpisodesByEpisodesId.apiURL, Sprintf, Sprintf.go, formatVerb,
    Sprintf.extra]

theorem GetIndicesByID_apiURL_eq (idxID : String) :
    GetIndicesByID.apiURL idxID =
      "https://api.bgm.tv/v0/indices/" ++ idxID := by
  simp [GetIndicesByID.apiURL, Sprintf, Sprintf.go, formatVerb,
    Sprintf.extra]

theorem EditIndicesInformationByIDAndRequestBody_apiURL_eq (idxID : String) :
    EditIndicesInformationByIDAndRequestBody.apiURL idxID =
      "https://api.bgm.tv/v0/indices/" ++ idxID := by
  simp [EditIndicesInformationByIDAndRequestBody.apiURL, Sprintf, Sprintf.go, formatVerb,
    Sprintf.extra]

theorem AddSubjectsToIndicesByIDAndRequestBody_apiURL_eq (idxID : String) :
    AddSubjectsToIndicesByIDAndRequestBody.apiURL idxID =
      "https://api.bgm.tv/v0/indices/" ++ idxID ++ "/subjects" := by
  simp [AddSubjectsToIndicesByIDAndRequestBody.apiURL, Sprintf, Sprintf.go, formatVerb,
    Sprintf.extra]
  all_goals (apply String.ext; simp)

theorem EditSubjectsInformationInIndiesByIDAndRequestBody_apiURL_eq (idxID subID : String) :
    EditSubjectsInformationInIndiesByIDAndRequestBody.apiURL idxID subID =
      "https://api.bgm.tv/v0/indices/" ++ idxID ++ "/subjects/" ++ subID := by
  simp [EditSubjectsInformationInIndiesByIDAndRequestBody.apiURL, Sprintf, Sprintf.go, formatVerb,
    Sprintf.extra]
  all_goals (apply String.ext; simp)

theorem DeleteSubjectsFromIndicesByID_apiURL_eq (idxID subID : String) :
    DeleteSubjectsFromIndicesByID.apiURL idxID subID =
      "https://api.bgm.tv/v0/indices/" ++ idxID ++ "/subjects/" ++ subID := by
  simp [DeleteSubjectsFromIndicesByID.apiURL, Sprintf, Sprintf.go, formatVerb,
    Sprintf.extra]
  all_goals (apply String.ext; simp)

theorem CollectIndicesForCurrentUserByID_apiURL_eq (idxID : String) :
    CollectIndicesForCurrentUserByID.apiURL idxID =
      "https://api.bgm.tv/v0/indices/" ++ idxID ++ "/collect" := by
  simp [CollectIndicesForCurrentUserByID.apiURL, Sprintf, Sprintf.go, formatVerb,
    Sprintf.extra]
  all_goals (apply String.ext; simp)

theorem DeleteCollectIndicesForCurrentUserByID_apiURL_eq (idxID : String) :
    DeleteCollectIndicesForCurrentUserByID.apiURL idxID =
      "https://api.bgm.tv/v0/indices/" ++ idxID ++ "/collect" := by
  simp [DeleteCollectIndicesForCurrentUserByID.apiURL, Sprintf, Sprintf.go, formatVerb,
    Sprintf.extra]
  all_goals (apply String.ext; simp)

theorem SearchPersonsById_apiURL_eq (perID : String) :
    SearchPersonsById.apiURL perID =
      "https://api.bgm.tv/v0/persons/" ++ perID := by
  simp [SearchPersonsById.apiURL, Sprintf, Sprintf.go, formatVerb,
    Sprintf.extra]

theorem SetCollectPersonsById_apiURL_eq (perID : String) :
    SetCollectPersonsById.apiURL perID =
      "https://api.bgm.tv/v0/persons/" ++ perID ++ "/collect" := by
  simp [SetCollectPersonsById.apiURL, Sprintf, Sprintf.go, formatVerb,
    Sprintf.extra]
  all_goals (apply String.ext; simp)

theorem DeleteCollectPersonsById_apiURL_eq (perID : String) :
    DeleteCollectPersonsById.apiURL perID =
      "https://api.bgm.tv/v0/persons/" ++ perID ++ "/collect/" := by
  simp [DeleteCollectPersonsById.apiURL, Sprintf, Sprintf.go, formatVerb,
    Sprintf.extra]
  all_goals (apply String.ext; simp)

theorem SearchPersonsRevisionsByRevisionsId_apiURL_eq (revID : String) :
    SearchPersonsRevisionsByRevisionsId.apiURL revID =
      "https://api.bgm.tv/v0/revisions/persons/" ++ revID := by
  simp [SearchPersonsRevisionsByRevisionsId.apiURL, Sprintf, Sprintf.go, formatVerb,
    Sprintf.extra]

theorem SearchCharactersRevisionsByRevisionsId_apiURL_eq (revID : String) :
    SearchCharactersRevisionsByRevisionsId.apiURL revID =
      "https://api.bgm.tv/v0/revisions/characters/" ++ revID := by
  simp [SearchCharactersRevisionsByRevisionsId.apiURL, Sprintf, Sprintf.go, formatVerb,
    Sprintf.extra]

theorem SearchSubjectsRevisionsByRevisionsId_apiURL_eq (revID : String) :
    SearchSubjectsRevisionsByRevisionsId.apiURL revID =
      "https://api.bgm.tv/v0/revisions/subjects/" ++ revID := by
  simp [SearchSubjectsRevisionsByRevisionsId.apiURL, Sprintf, Sprintf.go, formatVerb,
    Sprintf.extra]

theorem SearchEpisodesRevisionsByRevisionsId_apiURL_eq (revID : String) :
    SearchEpisodesRevisionsByRevisionsId.apiURL revID =
      "https://api.bgm.tv/v0/revisions/episodes/" ++ revID := by
  simp [SearchEpisodesRevisionsByRevisionsId.apiURL, Sprintf, Sprintf.go, formatVerb,
    Sprintf.extra]

theorem SearchUserNameByName_apiURL_eq (userName : String) :
    SearchUserNameByName.apiURL userName =
      "https://api.bgm.tv/v0/users/" ++ userName := by
  simp [SearchUserNameByName.apiURL, Sprintf, Sprintf.go, formatVerb,
    Sprintf.extra]

/-! ## The enum translations against the tables of the specification -/

theorem SearchAllSubjectsByName_sType_eq (typeName : String) :
    SearchAllSubjectsByName.sType typeName = Spec.code Spec.subjectTypes 0 typeName ∧
      SearchAllSubjectsByName.sType typeName ∈ [0, 1, 2, 3, 4, 5, 6] := by
  unfold SearchAllSubjectsByName.sType
  split_ifs <;> simp_all [Spec.code, Spec.subjectTypes]

theorem GetIndicesSubjectByID_sType_eq (typeName : String) :
    GetIndicesSubjectByID.sType typeName = Spec.code Spec.subjectTypes 0 typeName ∧
      GetIndicesSubjectByID.sType typeName ∈ [0, 1, 2, 3, 4, 5, 6] := by
  unfold GetIndicesSubjectByID.sType
  split_ifs <;> simp_all [Spec.code, Spec.subjectTypes]

theorem SearchCollectionsByUserName_tType_eq (typeName : String) :
    SearchCollectionsByUserName.tType typeName = Spec.code Spec.collectionTypes 0 typeName ∧
      SearchCollectionsByUserName.tType typeName ∈ [0, 1, 2, 3, 4, 5, 6] := by
  unfold SearchCollectionsByUserName.tType
  split_ifs <;> simp_all [Spec.code, Spec.collectionTypes]

theorem SearchCollectionsByUserName_sType_eq {subjectTypeName : String}
    (h : subjectTypeName ∈ ["书籍", "动漫", "音乐", "游戏", "三次元"]) :
    SearchCollectionsByUserName.sType subjectTypeName =
        some (Spec.code Spec.subjectTypes 0 subjectTypeName) ∧
      Spec.code Spec.subjectTypes 0 subjectTypeName ∈ [0, 1, 2, 3, 4, 5, 6] := by
  simp at h
  rcases h with rfl | rfl | rfl | rfl | rfl <;> decide

theorem SearchEpisodesByEpisodesName_sType_eq (typeName : String) :
    SearchEpisodesByEpisodesName.sType typeName = Spec.code Spec.episodeTypes 0 typeName ∧
      SearchEpisodesByEpisodesName.sType typeName ∈ [0, 1, 2, 3, 4, 5, 6] := by
  unfold SearchEpisodesByEpisodesName.sType
  split_ifs <;> simp_all [Spec.code, Spec.episodeTypes]

theorem SearchUsersCollectionsEpisodesBySubjectsID_sType_eq (episodesType : String) :
    SearchUsersCollectionsEpisodesBySubjectsID.sType episodesType =
        Spec.code Spec.episodeTypes 0 episodesType ∧
      SearchUsersCollectionsEpisodesBySubjectsID.sType episodesType ∈ [0, 1, 2, 3, 4, 5, 6] := by
  unfold SearchUsersCollectionsEpisodesBySubjectsID.sType
  split_ifs <;> simp_all [Spec.code, Spec.episodeTypes]

/-! ## The dispatchers -/

/-- C1: whenever the request is built and the client answers with status `s`
and a readable body `b`, `getJsonDataFromURL` returns exactly `b` with a nil
error if `s = 200`, and otherwise returns no bytes and the error whose message
is `getJsonDataFromURL：错误的返回码:` followed by the decimal rendering of `s`. -/
theorem getJsonDataFromURL_status (g : Globals) (method url requestBody : String)
    (client : Client) (req : Request) (s : Int) (b : Bytes)
    (hreq : buildRequest method url requestBody = some req)
    (hresp : client.Do (setHeaders g req) = some ⟨s, some b⟩) :
    (s = 200 →
      (getJsonDataFromURL g method url requestBody client).val = some b ∧
        (getJsonDataFromURL g method url requestBody client).err = none) ∧
    (s ≠ 200 →
      (getJsonDataFromURL g method url requestBody client).val = none ∧
        (getJsonDataFromURL g method url requestBody client).err =
          some ("getJsonDataFromURL：错误的返回码:" ++ Itoa s)) := by
  constructor
  · intro hs
    simp [getJsonDataFromURL, hreq, hresp, hs]
  · intro hs
    simp [getJsonDataFromURL, hreq, hresp, hs]

/-- Witness of C1: a GET of `https://api.bgm.tv/v0/me` answered with status 204
and a one-byte body gives no bytes and the message ending in `204`. -/
theorem getJsonDataFromURL_status_witness :
    buildRequest "GET" "https://api.bgm.tv/v0/me" "" =
        some ⟨"GET", "https://api.bgm.tv/v0/me", none, []⟩ ∧
      Itoa 204 = "204" ∧
      ((204 : Int) ≠ 200 →
        (getJsonDataFromURL ⟨"token", "agent"⟩ "GET" "https://api.bgm.tv/v0/me" ""
            ⟨fun _ => some ⟨204, some [123]⟩⟩).val = none ∧
          (getJsonDataFromURL ⟨"token", "agent"⟩ "GET" "https://api.bgm.tv/v0/me" ""
            ⟨fun _ => some ⟨204, some [123]⟩⟩).err =
            some ("getJsonDataFromURL：错误的返回码:" ++ Itoa 204)) :=
  ⟨by decide, by decide,
    (getJsonDataFromURL_status ⟨"token", "agent"⟩ "GET" "https://api.bgm.tv/v0/me" ""
      ⟨fun _ => some ⟨204, some [123]⟩⟩ ⟨"GET", "https://api.bgm.tv/v0/me", none, []⟩ 204 [123]
      (by decide) rfl).2⟩

/-- C2: `getBoolDataFromURL` returns a nil error exactly when the request was
built, the client answered it without a transport error, and the status of the
answer is 200 or 204; in every other case the error is non-nil. -/
theorem getBoolDataFromURL_err_none_iff (g : Globals) (method url requestBody : String)
    (client : Client) :
    (getBoolDataFromURL g method url requestBody client).err = none ↔
      ∃ req resp, buildRequest method url requestBody = some req ∧
        client.Do (setHeaders g req) = some resp ∧
        (resp.StatusCode = 200 ∨ resp.StatusCode = 204) := by
  unfold getBoolDataFromURL
  cases hreq : buildRequest method url requestBody with
  | none => simp
  | some req =>
    cases hresp : client.Do (setHeaders g req) with
    | none => simp [hresp]
    | some resp =>
      by_cases h200 : resp.StatusCode = 200
      · simp [hresp, h200]
      · by_cases h204 : resp.StatusCode = 204
        · simp [hresp, h204]
        · simp [hresp, h200, h204]

/-! ## Subject types -/

theorem SearchCollectionsByUserName_sType_none {subjectTypeName : String}
    (h : subjectTypeName ∉ ["书籍", "动漫", "音乐", "游戏", "三次元"]) :
    SearchCollectionsByUserName.sType subjectTypeName = none := by
  simp at h
  simp [SearchCollectionsByUserName.sType, h]

/-- C3: for a `subjectTypeName` outside 书籍, 动漫, 音乐, 游戏, 三次元 and any
other arguments, `SearchCollectionsByUserName` returns nil bytes and a non-nil
error, and hands no request to the client. -/
theorem SearchCollectionsByUserName_unknown_subject (g : Globals)
    (userName subjectTypeName typeName limit offset : String) (client : Client)
    (h : subjectTypeName ∉ ["书籍", "动漫", "音乐", "游戏", "三次元"]) :
    (SearchCollectionsByUserName g userName subjectTypeName typeName limit offset client).val
        = none ∧
      (SearchCollectionsByUserName g userName subjectTypeName typeName limit offset client).err
        ≠ none ∧
      (SearchCollectionsByUserName g userName subjectTypeName typeName limit offset client).sent
        = [] := by
  simp [SearchCollectionsByUserName, SearchCollectionsByUserName_sType_none h]

/-- Witness of C3: the subject type 不存在 with an unrecognized type name too. -/
theorem SearchCollectionsByUserName_unknown_subject_witness :
    "不存在" ∉ ["书籍", "动漫", "音乐", "游戏", "三次元"] ∧
      (SearchCollectionsByUserName ⟨"token", "agent"⟩ "alice" "不存在" "没有" "10" "0"
          ⟨fun _ => some ⟨200, some [123]⟩⟩).val = none ∧
      (SearchCollectionsByUserName ⟨"token", "agent"⟩ "alice" "不存在" "没有" "10" "0"
          ⟨fun _ => some ⟨200, some [123]⟩⟩).err ≠ none ∧
      (SearchCollectionsByUserName ⟨"token", "agent"⟩ "alice" "不存在" "没有" "10" "0"
          ⟨fun _ => some ⟨200, some [123]⟩⟩).sent = [] :=
  ⟨by decide,
    SearchCollectionsByUserName_unknown_subject ⟨"token", "agent"⟩ "alice" "不存在" "没有" "10"
      "0" ⟨fun _ => some ⟨200, some [123]⟩⟩ (by decide)⟩

/-- C4, counterexample: `SearchAllSubjectsByName` with the type name 不存在, which
is none of the five subject types, does not fail: it sends a request whose query
holds `type=0` and returns the body with a nil error. -/
theorem SearchAllSubjectsByName_unknown_type_no_error :
    "不存在" ∉ ["书籍", "动漫", "音乐", "游戏", "三次元"] ∧
      (SearchAllSubjectsByName ⟨"token", "agent"⟩ "EVA" "不存在" "small" "0" "10"
          ⟨fun _ => some ⟨200, some [123, 125]⟩⟩).err = none ∧
      (SearchAllSubjectsByName ⟨"token", "agent"⟩ "EVA" "不存在" "small" "0" "10"
          ⟨fun _ => some ⟨200, some [123, 125]⟩⟩).val = some [123, 125] ∧
      (SearchAllSubjectsByName ⟨"token", "agent"⟩ "EVA" "不存在" "small" "0" "10"
          ⟨fun _ => some ⟨200, some [123, 125]⟩⟩).sent.map Request.URL =
        ["https://api.bgm.tv/search/subject/EVA?max_results=10&responseGroup=small&start=0&type=0"] := by
  decide

/-- C4 as amended: for a type name outside the five subject types, only
`SearchCollectionsByUserName` fails (error 不匹配的subjectTypeName, nil bytes, no
request); `SearchAllSubjectsByName` and `GetIndicesSubjectByID` go on to their
dispatcher with `type=0` in the query. -/
theorem unknown_subject_type_by_endpoint (g : Globals) (name : String) (client : Client)
    (userName typeName limit offset keyWord responseGroup start nmaxResults idxID : String)
    (h : name ∉ ["书籍", "动漫", "音乐", "游戏", "三次元"]) :
    ((SearchCollectionsByUserName g userName name typeName limit offset client).err =
          some "不匹配的subjectTypeName" ∧
        (SearchCollectionsByUserName g userName name typeName limit offset client).val = none ∧
        (SearchCollectionsByUserName g userName name typeName limit offset client).sent = []) ∧
      SearchAllSubjectsByName g keyWord name responseGroup start nmaxResults client =
        returnJson (getJsonDataFromURL g "GET"
          ("https://api.bgm.tv/search/subject/" ++ keyWord ++ "?max_results=" ++
            QueryEscape nmaxResults ++ "&responseGroup=" ++ QueryEscape responseGroup ++
            "&start=" ++ QueryEscape start ++ "&type=" ++ "0") "" client) ∧
      GetIndicesSubjectByID g idxID name limit offset client =
        returnBool (getBoolDataFromURL g "GET"
          ("https://api.bgm.tv/v0/indices/" ++ idxID ++ "/subjects?limit=" ++
            QueryEscape limit ++ "&offset=" ++ QueryEscape offset ++ "&type=" ++ "0") ""
          client) := by
  have h0 : QueryEscape (Itoa 0) = "0" := by decide
  have hn := h
  simp only [List.mem_cons, List.mem_singleton, List.not_mem_nil, or_false, not_or] at hn
  obtain ⟨h1, h2, h3, h4, h5⟩ := hn
  refine ⟨?_, ?_, ?_⟩
  · simp [SearchCollectionsByUserName, SearchCollectionsByUserName_sType_none h]
  · have hs : SearchAllSubjectsByName.sType name = 0 := by
      simp [SearchAllSubjectsByName.sType, h1, h2, h3, h4, h5]
    simp only [SearchAllSubjectsByName, SearchAllSubjectsByName_apiURL_eq, hs, h0]
  · have hs : GetIndicesSubjectByID.sType name = 0 := by
      simp [GetIndicesSubjectByID.sType, h1, h2, h3, h4, h5]
    simp only [GetIndicesSubjectByID, GetIndicesSubjectByID_apiURL_eq, hs, h0]

/-- Witness of C4 as amended, at the type name 不存在. -/
theorem unknown_subject_type_by_endpoint_witness :
    "不存在" ∉ ["书籍", "动漫", "音乐", "游戏", "三次元"] ∧
      (SearchCollectionsByUserName ⟨"token", "agent"⟩ "alice" "不存在" "想看" "10" "0"
          ⟨fun _ => some ⟨200, some [123, 125]⟩⟩).sent = [] ∧
      SearchAllSubjectsByName ⟨"token", "agent"⟩ "EVA" "不存在" "small" "0" "10"
          ⟨fun _ => some ⟨200, some [123, 125]⟩⟩ =
        returnJson (getJsonDataFromURL ⟨"token", "agent"⟩ "GET"
          ("https://api.bgm.tv/search/subject/" ++ "EVA" ++ "?max_results=" ++
            QueryEscape "10" ++ "&responseGroup=" ++ QueryEscape "small" ++
            "&start=" ++ QueryEscape "0" ++ "&type=" ++ "0") ""
          ⟨fun _ => some ⟨200, some [123, 125]⟩⟩) :=
  ⟨by decide,
    (unknown_subject_type_by_endpoint ⟨"token", "agent"⟩ "不存在"
      ⟨fun _ => some ⟨200, some [123, 125]⟩⟩ "alice" "想看" "10" "0" "EVA" "small" "0" "10" "7"
      (by decide)).1.2.2,
    (unknown_subject_type_by_endpoint ⟨"token", "agent"⟩ "不存在"
      ⟨fun _ => some ⟨200, some [123, 125]⟩⟩ "alice" "想看" "10" "0" "EVA" "small" "0" "10" "7"
      (by decide)).2.1⟩

/-- C5: `SearchAllSubjectsByName` and `GetIndicesSubjectByID` have no error
branch on `typeName`: each hands its dispatcher the URL whose `type` value is
the code of `typeName` in the subject-type table (1, 2, 3, 4, 6), and 0 for
every name outside the table, and returns what the dispatcher returns. -/
theorem subject_type_defaults_to_zero (g : Globals) (client : Client)
    (typeName keyWord responseGroup start nmaxResults idxID limit offset : String) :
    SearchAllSubjectsByName g keyWord typeName responseGroup start nmaxResults client =
        returnJson (getJsonDataFromURL g "GET"
          ("https://api.bgm.tv/search/subject/" ++ keyWord ++ "?max_results=" ++
            QueryEscape nmaxResults ++ "&responseGroup=" ++ QueryEscape responseGroup ++
            "&start=" ++ QueryEscape start ++ "&type=" ++
            Itoa (Spec.code Spec.subjectTypes 0 typeName)) "" client) ∧
      GetIndicesSubjectByID g idxID typeName limit offset client =
        returnBool (getBoolDataFromURL g "GET"
          ("https://api.bgm.tv/v0/indices/" ++ idxID ++ "/subjects?limit=" ++
            QueryEscape limit ++ "&offset=" ++ QueryEscape offset ++ "&type=" ++
            Itoa (Spec.code Spec.subjectTypes 0 typeName)) "" client) := by
  constructor
  · have hs := SearchAllSubjectsByName_sType_eq typeName
    have hq := QueryEscape_Itoa_code _ hs.2
    rw [hs.1] at hq
    simp only [SearchAllSubjectsByName, SearchAllSubjectsByName_apiURL_eq, hs.1, hq]
  · have hs := GetIndicesSubjectByID_sType_eq typeName
    have hq := QueryEscape_Itoa_code _ hs.2
    rw [hs.1] at hq
    simp only [GetIndicesSubjectByID, GetIndicesSubjectByID_apiURL_eq, hs.1, hq]

/-! ## Collection types and episode types -/

/-- C6: with a recognized `subjectTypeName`, `SearchCollectionsByUserName` hands
its dispatcher the URL whose `type` value is the code of `typeName` in the
collection-type table (想看 1, 看过 2, 在看 3, 搁置 4, 抛弃 5) and 0 for every
other name, and returns what the dispatcher returns: `typeName` has no error
branch. -/
theorem SearchCollectionsByUserName_type_code (g : Globals) (client : Client)
    (userName subjectTypeName typeName limit offset : String)
    (h : subjectTypeName ∈ ["书籍", "动漫", "音乐", "游戏", "三次元"]) :
    SearchCollectionsByUserName g userName subjectTypeName typeName limit offset client =
      returnJson (getJsonDataFromURL g "GET"
        ("https://api.bgm.tv/v0/users/" ++ userName ++ "/collections?limit=" ++
          QueryEscape limit ++ "&offset=" ++ QueryEscape offset ++ "&subject_type=" ++
          Itoa (Spec.code Spec.subjectTypes 0 subjectTypeName) ++ "&type=" ++
          Itoa (Spec.code Spec.collectionTypes 0 typeName)) "" client) := by
  have hs := SearchCollectionsByUserName_sType_eq h
  have ht := SearchCollectionsByUserName_tType_eq typeName
  have hq := QueryEscape_Itoa_code _ ht.2
  rw [ht.1] at hq
  simp only [SearchCollectionsByUserName, hs.1, SearchCollectionsByUserName_apiURL_eq,
    QueryEscape_Itoa_code _ hs.2, ht.1, hq]

/-- Witness of C6: subject type 书籍 with the unrecognized type name 没有 gives
`type=0`. -/
theorem SearchCollectionsByUserName_type_code_witness :
    "书籍" ∈ ["书籍", "动漫", "音乐", "游戏", "三次元"] ∧
      Itoa (Spec.code Spec.collectionTypes 0 "没有") = "0" ∧
      SearchCollectionsByUserName ⟨"token", "agent"⟩ "alice" "书籍" "没有" "10" "0"
          ⟨fun _ => some ⟨200, some [123, 125]⟩⟩ =
        returnJson (getJsonDataFromURL ⟨"token", "agent"⟩ "GET"
          ("https://api.bgm.tv/v0/users/" ++ "alice" ++ "/collections?limit=" ++
            QueryEscape "10" ++ "&offset=" ++ QueryEscape "0" ++ "&subject_type=" ++
            Itoa (Spec.code Spec.subjectTypes 0 "书籍") ++ "&type=" ++
            Itoa (Spec.code Spec.collectionTypes 0 "没有")) ""
          ⟨fun _ => some ⟨200, some [123, 125]⟩⟩) :=
  ⟨by decide, by decide,
    SearchCollectionsByUserName_type_code ⟨"token", "agent"⟩
      ⟨fun _ => some ⟨200, some [123, 125]⟩⟩ "alice" "书籍" "没有" "10" "0" (by decide)⟩

/-- C7: the `switch` of `SearchEpisodesByEpisodesName` and the `switch` of
`SearchUsersCollectionsEpisodesBySubjectsID` both compute the code of the name
in the episode-type table (本篇 0, 特别篇 1, OP 2, ED 3, 预告/宣传/广告 4, MAD 5,
其他 6) and 0, the code of 本篇, for every other name; neither function has an
error branch on the name: each returns what its dispatcher returns for the URL
built with that code. -/
theorem episode_type_code (g : Globals) (client : Client)
    (name sbjID subID limit offset : String) :
    SearchEpisodesByEpisodesName.sType name = Spec.code Spec.episodeTypes 0 name ∧
      SearchUsersCollectionsEpisodesBySubjectsID.sType name =
        Spec.code Spec.episodeTypes 0 name ∧
      Spec.code Spec.episodeTypes 0 "本篇" = 0 ∧
      (name ∉ ["本篇", "特别篇", "OP", "ED", "预告/宣传/广告", "MAD", "其他"] →
        Spec.code Spec.episodeTypes 0 name = 0) ∧
      SearchEpisodesByEpisodesName g sbjID name limit offset client =
        returnJson (getJsonDataFromURL g "GET"
          ("https://api.bgm.tv/v0/episodes?limit=" ++ QueryEscape limit ++ "&offset=" ++
            QueryEscape offset ++ "&subject_id=" ++ QueryEscape sbjID ++ "&type=" ++
            Itoa (Spec.code Spec.episodeTypes 0 name)) "" client) ∧
      SearchUsersCollectionsEpisodesBySubjectsID g subID offset limit name client =
        returnJson (getJsonDataFromURL g "GET"
          ("https://api.bgm.tv/v0/users/-/collections/" ++ subID ++
            "/episodes?%!(EXTRA string=episode_type=" ++
            Itoa (Spec.code Spec.episodeTypes 0 name) ++ "&limit=" ++ QueryEscape limit ++
            "&offset=" ++ QueryEscape offset ++ ")") "" client) := by
  have h1 := SearchEpisodesByEpisodesName_sType_eq name
  have h2 := SearchUsersCollectionsEpisodesBySubjectsID_sType_eq name
  refine ⟨h1.1, h2.1, by decide, ?_, ?_, ?_⟩
  · intro hn
    simp only [List.mem_cons, List.mem_singleton, List.not_mem_nil, or_false, not_or] at hn
    simp [Spec.code, Spec.episodeTypes, hn]
  · have hq := QueryEscape_Itoa_code _ h1.2
    rw [h1.1] at hq
    simp only [SearchEpisodesByEpisodesName, SearchEpisodesByEpisodesName_apiURL_eq, h1.1, hq]
  · have hq := QueryEscape_Itoa_code _ h2.2
    rw [h2.1] at hq
    simp only [SearchUsersCollectionsEpisodesBySubjectsID,
      SearchUsersCollectionsEpisodesBySubjectsID_apiURL_eq, h2.1, hq]

/-! ## The URL of a collection search -/

/-- C8, counterexample: the request `SearchCollectionsByUserName` sends for
alice, 书籍, 想看, 10, 0 has its query keys in sorted order, so its URL is not the
one with the order subject_type, type, limit, offset. -/
theorem SearchCollectionsByUserName_alice_not_in_added_order :
    (SearchCollectionsByUserName ⟨"token", "agent"⟩ "alice" "书籍" "想看" "10" "0"
        ⟨fun _ => some ⟨200, some [123, 125]⟩⟩).sent.map Request.URL =
      ["https://api.bgm.tv/v0/users/alice/collections?limit=10&offset=0&subject_type=1&type=1"] ∧
    (SearchCollectionsByUserName ⟨"token", "agent"⟩ "alice" "书籍" "想看" "10" "0"
        ⟨fun _ => some ⟨200, some [123, 125]⟩⟩).sent.map Request.URL ≠
      ["https://api.bgm.tv/v0/users/alice/collections?subject_type=1&type=1&limit=10&offset=0"] := by
  decide

/-- C8 as amended: for alice, 书籍, 想看, 10, 0 and any credentials and client,
`SearchCollectionsByUserName` hands the client exactly one request, a GET with
no body whose URL is
`https://api.bgm.tv/v0/users/alice/collections?limit=10&offset=0&subject_type=1&type=1`. -/
theorem SearchCollectionsByUserName_alice_request (g : Globals) (client : Client) :
    (SearchCollectionsByUserName g "alice" "书籍" "想看" "10" "0" client).sent =
      [⟨"GET",
        "https://api.bgm.tv/v0/users/alice/collections?limit=10&offset=0&subject_type=1&type=1",
        none,
        [("Content-Type", "application/json"), ("Authorization", "Bearer " ++ g.Token),
          ("User-Agent", g.UserAgent)]⟩] := by
  have hs : SearchCollectionsByUserName.sType "书籍" = some 1 := by decide
  have ht : SearchCollectionsByUserName.tType "想看" = 1 := by decide
  have hu : SearchCollectionsByUserName.apiURL "alice" 1 1 "10" "0" =
      "https://api.bgm.tv/v0/users/alice/collections?limit=10&offset=0&subject_type=1&type=1" := by
    decide
  have hb : buildRequest "GET"
      "https://api.bgm.tv/v0/users/alice/collections?limit=10&offset=0&subject_type=1&type=1" "" =
      some ⟨"GET",
        "https://api.bgm.tv/v0/users/alice/collections?limit=10&offset=0&subject_type=1&type=1",
        none, []⟩ := by decide
  simp only [SearchCollectionsByUserName, hs, ht, hu, returnJson_sent,
    getJsonDataFromURL_sent g client hb]
  simp [setHeaders, Header.Set]

/-- C10, counterexample: for the subject id made of one line feed no request is
handed to the client, since `http.NewRequest` rejects a URL with a control
character; the call returns nil bytes and the error of a request not built. -/
theorem SearchSubjectsById_control_character_no_request :
    (SearchSubjectsById ⟨"token", "agent"⟩ "\n" ⟨fun _ => some ⟨200, some [123, 125]⟩⟩).sent
        = [] ∧
      (SearchSubjectsById ⟨"token", "agent"⟩ "\n" ⟨fun _ => some ⟨200, some [123, 125]⟩⟩).val
        = none ∧
      (SearchSubjectsById ⟨"token", "agent"⟩ "\n" ⟨fun _ => some ⟨200, some [123, 125]⟩⟩).err
        = some "getJsonDataFromURL：不正确的请求" := by
  decide

/-- C10 as amended: for every `subID` such that `url.Parse` accepts
`https://api.bgm.tv/v0/subjects/` followed by `subID`, `SearchSubjectsById`
hands the client exactly one request, a GET with no body whose URL text is that
concatenation unchanged; if the client answers 200 with a readable body the
call returns the body bytes and a nil error, and if it answers 404 the call
returns nil bytes and the error reporting status 404. -/
theorem SearchSubjectsById_request (g : Globals) (subID : String) (client : Client)
    (h : Parse ("https://api.bgm.tv/v0/subjects/" ++ subID) = true) :
    (SearchSubjectsById g subID client).sent =
        [⟨"GET", "https://api.bgm.tv/v0/subjects/" ++ subID, none,
          [("Content-Type", "application/json"), ("Authorization", "Bearer " ++ g.Token),
            ("User-Agent", g.UserAgent)]⟩] ∧
      (∀ b : Bytes,
        client.Do ⟨"GET", "https://api.bgm.tv/v0/subjects/" ++ subID, none,
            [("Content-Type", "application/json"), ("Authorization", "Bearer " ++ g.Token),
              ("User-Agent", g.UserAgent)]⟩ = some ⟨200, some b⟩ →
          (SearchSubjectsById g subID client).val = some b ∧
            (SearchSubjectsById g subID client).err = none) ∧
      (∀ body : Option Bytes,
        client.Do ⟨"GET", "https://api.bgm.tv/v0/subjects/" ++ subID, none,
            [("Content-Type", "application/json"), ("Authorization", "Bearer " ++ g.Token),
              ("User-Agent", g.UserAgent)]⟩ = some ⟨404, body⟩ →
          (SearchSubjectsById g subID client).val = none ∧
            (SearchSubjectsById g subID client).err =
              some "getJsonDataFromURL：错误的返回码:404") := by
  have hb := buildRequest_GET _ h
  have hh : setHeaders g ⟨"GET", "https://api.bgm.tv/v0/subjects/" ++ subID, none, []⟩ =
      ⟨"GET", "https://api.bgm.tv/v0/subjects/" ++ subID, none,
        [("Content-Type", "application/json"), ("Authorization", "Bearer " ++ g.Token),
          ("User-Agent", g.UserAgent)]⟩ := by
    simp [setHeaders, Header.Set]
  have h404 : "getJsonDataFromURL：错误的返回码:" ++ Itoa 404 =
      "getJsonDataFromURL：错误的返回码:404" := by decide
  refine ⟨?_, ?_, ?_⟩
  · simp only [SearchSubjectsById, SearchSubjectsById_apiURL_eq, returnJson_sent,
      getJsonDataFromURL_sent g client hb, hh]
  · intro b hdo
    simp [SearchSubjectsById, SearchSubjectsById_apiURL_eq, getJsonDataFromURL, hb, hh, hdo,
      returnJson]
  · intro body hdo
    simp [SearchSubjectsById, SearchSubjectsById_apiURL_eq, getJsonDataFromURL, hb, hh, hdo,
      returnJson, h404]

/-- Witness of C10 as amended: the subject id 300, answered with status 404. -/
theorem SearchSubjectsById_request_witness :
    Parse ("https://api.bgm.tv/v0/subjects/" ++ "300") = true ∧
      (SearchSubjectsById ⟨"token", "agent"⟩ "300" ⟨fun _ => some ⟨404, none⟩⟩).sent =
        [⟨"GET", "https://api.bgm.tv/v0/subjects/" ++ "300", none,
          [("Content-Type", "application/json"), ("Authorization", "Bearer " ++ "token"),
            ("User-Agent", "agent")]⟩] ∧
      (SearchSubjectsById ⟨"token", "agent"⟩ "300" ⟨fun _ => some ⟨404, none⟩⟩).err =
        some "getJsonDataFromURL：错误的返回码:404" :=
  ⟨by decide,
    (SearchSubjectsById_request ⟨"token", "agent"⟩ "300" ⟨fun _ => some ⟨404, none⟩⟩
      (by decide)).1,
    ((SearchSubjectsById_request ⟨"token", "agent"⟩ "300" ⟨fun _ => some ⟨404, none⟩⟩
      (by decide)).2.2 none rfl).2⟩

/-! ## Collecting a character -/

/-- C11, counterexample: for the character id made of one line feed
`SetCollectCharactersById` issues no POST at all, since `http.NewRequest`
rejects a URL with a control character; it returns false and the error of a
request not built. -/
theorem SetCollectCharactersById_control_character_no_request :
    (SetCollectCharactersById ⟨"token", "agent"⟩ "\n" ⟨fun _ => some ⟨200, some []⟩⟩).sent
        = [] ∧
      (SetCollectCharactersById ⟨"token", "agent"⟩ "\n" ⟨fun _ => some ⟨200, some []⟩⟩).val
        = false ∧
      (SetCollectCharactersById ⟨"token", "agent"⟩ "\n" ⟨fun _ => some ⟨200, some []⟩⟩).err
        = some "getBoolDataFromURL：不正确的请求" := by
  decide

/-- C11 as amended: for every `chrID`, `SetCollectCharactersById` returns
(true, nil) when its request is answered with status 200 or 204 and
(false, non-nil error) for every other outcome: another status, a transport
error, or a request that is not built; the returned bool is true exactly when
the error is nil.  It hands the client exactly one request, a POST with no body
to `https://api.bgm.tv/v0/characters/<chrID>/collect`, when `url.Parse` accepts
that URL, and no request when it does not. -/
theorem SetCollectCharactersById_request (g : Globals) (chrID : String) (client : Client) :
    ((SetCollectCharactersById g chrID client).val = true ↔
        (SetCollectCharactersById g chrID client).err = none) ∧
      ((SetCollectCharactersById g chrID client).val = false →
        (SetCollectCharactersById g chrID client).err ≠ none) ∧
      ((SetCollectCharactersById g chrID client).err = none ↔
        Parse ("https://api.bgm.tv/v0/characters/" ++ chrID ++ "/collect") = true ∧
          ∃ resp : Response,
            client.Do ⟨"POST", "https://api.bgm.tv/v0/characters/" ++ chrID ++ "/collect",
              none,
              [("Content-Type", "application/json"), ("Authorization", "Bearer " ++ g.Token),
                ("User-Agent", g.UserAgent)]⟩ = some resp ∧
            (resp.StatusCode = 200 ∨ resp.StatusCode = 204)) ∧
      (SetCollectCharactersById g chrID client).sent =
        (if Parse ("https://api.bgm.tv/v0/characters/" ++ chrID ++ "/collect") = true then
          [⟨"POST", "https://api.bgm.tv/v0/characters/" ++ chrID ++ "/collect", none,
            [("Content-Type", "application/json"), ("Authorization", "Bearer " ++ g.Token),
              ("User-Agent", g.UserAgent)]⟩]
        else []) := by
  have hiff : (SetCollectCharactersById g chrID client).val = true ↔
      (SetCollectCharactersById g chrID client).err = none := by
    simp only [SetCollectCharactersById, returnBool]
    split <;> simp_all
  refine ⟨hiff, ?_, ?_, ?_⟩
  · intro hv he
    rw [hiff.mpr he] at hv
    exact Bool.noConfusion hv
  · cases h : Parse ("https://api.bgm.tv/v0/characters/" ++ chrID ++ "/collect") with
    | false =>
      have hb := buildRequest_rejected "POST" _ "" h
      simp [SetCollectCharactersById, SetCollectCharactersById_apiURL_eq, getBoolDataFromURL,
        hb, returnBool]
    | true =>
      have hb := buildRequest_no_body "POST" _ (by decide) (by decide) h
      have hh := setHeaders_new g "POST"
        ("https://api.bgm.tv/v0/characters/" ++ chrID ++ "/collect") none
      cases hdo : client.Do ⟨"POST",
          "https://api.bgm.tv/v0/characters/" ++ chrID ++ "/collect", none,
          [("Content-Type", "application/json"), ("Authorization", "Bearer " ++ g.Token),
            ("User-Agent", g.UserAgent)]⟩ with
      | none =>
        simp [SetCollectCharactersById, SetCollectCharactersById_apiURL_eq,
          getBoolDataFromURL, hb, hh, hdo, returnBool]
      | some resp =>
        by_cases h200 : resp.StatusCode = 200
        · simp [SetCollectCharactersById, SetCollectCharactersById_apiURL_eq,
            getBoolDataFromURL, hb, hh, hdo, returnBool, h200]
        · by_cases h204 : resp.StatusCode = 204
          · simp [SetCollectCharactersById, SetCollectCharactersById_apiURL_eq,
              getBoolDataFromURL, hb, hh, hdo, returnBool, h204]
          · simp [SetCollectCharactersById, SetCollectCharactersById_apiURL_eq,
              getBoolDataFromURL, hb, hh, hdo, returnBool, h200, h204]
  · cases h : Parse ("https://api.bgm.tv/v0/characters/" ++ chrID ++ "/collect") with
    | false =>
      have hb := buildRequest_rejected "POST" _ "" h
      simp [SetCollectCharactersById, SetCollectCharactersById_apiURL_eq, getBoolDataFromURL,
        hb, returnBool_sent]
    | true =>
      have hb := buildRequest_no_body "POST" _ (by decide) (by decide) h
      have hh := setHeaders_new g "POST"
        ("https://api.bgm.tv/v0/characters/" ++ chrID ++ "/collect") none
      simp only [SetCollectCharactersById, SetCollectCharactersById_apiURL_eq, returnBool_sent,
        getBoolDataFromURL_sent g client hb, hh]
      simp

/-- Witness of C11 as amended: the character id 123 answered with status 401
gives false and an error after one POST; answered with 204 it gives true and a
nil error. -/
theorem SetCollectCharactersById_request_witness :
    ((SetCollectCharactersById ⟨"token", "agent"⟩ "123" ⟨fun _ => some ⟨401, none⟩⟩).val
          = false →
        (SetCollectCharactersById ⟨"token", "agent"⟩ "123" ⟨fun _ => some ⟨401, none⟩⟩).err
          ≠ none) ∧
      (SetCollectCharactersById ⟨"token", "agent"⟩ "123" ⟨fun _ => some ⟨401, none⟩⟩).val
        = false ∧
      (SetCollectCharactersById ⟨"token", "agent"⟩ "123" ⟨fun _ => some ⟨401, none⟩⟩).sent =
        (if Parse ("https://api.bgm.tv/v0/characters/" ++ "123" ++ "/collect") = true then
          [⟨"POST", "https://api.bgm.tv/v0/characters/" ++ "123" ++ "/collect", none,
            [("Content-Type", "application/json"), ("Authorization", "Bearer " ++ "token"),
              ("User-Agent", "agent")]⟩]
        else []) ∧
      Parse ("https://api.bgm.tv/v0/characters/" ++ "123" ++ "/collect") = true ∧
      (SetCollectCharactersById ⟨"token", "agent"⟩ "123" ⟨fun _ => some ⟨204, none⟩⟩).err
        = none :=
  ⟨(SetCollectCharactersById_request ⟨"token", "agent"⟩ "123"
      ⟨fun _ => some ⟨401, none⟩⟩).2.1,
    by decide,
    (SetCollectCharactersById_request ⟨"token", "agent"⟩ "123"
      ⟨fun _ => some ⟨401, none⟩⟩).2.2.2,
    by decide,
    (SetCollectCharactersById_request ⟨"token", "agent"⟩ "123"
      ⟨fun _ => some ⟨204, none⟩⟩).2.2.1.mpr ⟨by decide, ⟨204, none⟩, rfl, Or.inr rfl⟩⟩

/-! ## Three URLs that differ from their documentation -/

/-- C13: the URL `SearchUsersCollectionsEpisodesBySubjectsID` requests is never
its path, ending in `collections/<subID>/episodes?`, followed directly by the
encoded query.  Its format string has no verb for the query, so
`fmt.Sprintf` appends the query as a left-over operand: for subject 12, offset
0, limit 10 and 本篇 the URL ends in
`?%!(EXTRA string=episode_type=0&limit=10&offset=0)`. -/
theorem SearchUsersCollectionsEpisodesBySubjectsID_extra_operand
    (subID offset limit : String) (sType : Int) :
    SearchUsersCollectionsEpisodesBySubjectsID.apiURL subID offset limit sType ≠
        "https://api.bgm.tv/v0/users/-/collections/" ++ subID ++ "/episodes?" ++
          ("episode_type=" ++ QueryEscape (Itoa sType) ++ "&limit=" ++ QueryEscape limit ++
            "&offset=" ++ QueryEscape offset) ∧
      (SearchUsersCollectionsEpisodesBySubjectsID ⟨"token", "agent"⟩ "12" "0" "10" "本篇"
          ⟨fun _ => some ⟨200, some [123, 125]⟩⟩).sent.map Request.URL =
        ["https://api.bgm.tv/v0/users/-/collections/12/episodes?%!(EXTRA string=episode_type=0&limit=10&offset=0)"] ∧
      (SearchUsersCollectionsEpisodesBySubjectsID ⟨"token", "agent"⟩ "12" "0" "10" "本篇"
          ⟨fun _ => some ⟨200, some [123, 125]⟩⟩).sent.map Request.URL ≠
        ["https://api.bgm.tv/v0/users/-/collections/12/episodes?episode_type=0&limit=10&offset=0"] := by
  refine ⟨?_, by decide, by decide⟩
  rw [SearchUsersCollectionsEpisodesBySubjectsID_apiURL_eq]
  intro heq
  have hd := congrArg String.data heq
  simp at hd

/-- C14: `GetCollectionsSubjectsEpisodesInfo` does not use the episodes sub-path
its comment documents: for every `subID` it sends its PATCH to the URL that
ends in `collections/<subID>`, with no `/episodes` after it, which is the very
URL of `EditCollectionsSubjectsInUsersByID`, and the two functions give the
same outcome on all inputs. -/
theorem GetCollectionsSubjectsEpisodesInfo_same_as_edit (g : Globals)
    (subID requestBody : String) (client : Client) :
    GetCollectionsSubjectsEpisodesInfo.apiURL subID =
        "https://api.bgm.tv/v0/users/-/collections/" ++ subID ∧
      GetCollectionsSubjectsEpisodesInfo.apiURL subID ≠
        "https://api.bgm.tv/v0/users/-/collections/" ++ subID ++ "/episodes" ∧
      GetCollectionsSubjectsEpisodesInfo.apiURL subID =
        EditCollectionsSubjectsInUsersByID.apiURL subID ∧
      GetCollectionsSubjectsEpisodesInfo g subID requestBody client =
        EditCollectionsSubjectsInUsersByID g subID requestBody client ∧
      (GetCollectionsSubjectsEpisodesInfo ⟨"token", "agent"⟩ "12" "x"
          ⟨fun _ => some ⟨204, some []⟩⟩).sent.map (fun r => (r.Method, r.URL)) =
        [("PATCH", "https://api.bgm.tv/v0/users/-/collections/12")] := by
  refine ⟨GetCollectionsSubjectsEpisodesInfo_apiURL_eq subID, ?_, ?_, ?_, by decide⟩
  · rw [GetCollectionsSubjectsEpisodesInfo_apiURL_eq]
    intro heq
    have hd := congrArg String.data heq
    simp at hd
  · rw [GetCollectionsSubjectsEpisodesInfo_apiURL_eq,
      EditCollectionsSubjectsInUsersByID_apiURL_eq]
  · simp only [GetCollectionsSubjectsEpisodesInfo, EditCollectionsSubjectsInUsersByID,
      GetCollectionsSubjectsEpisodesInfo_apiURL_eq,
      EditCollectionsSubjectsInUsersByID_apiURL_eq]

/-- C15: `DeleteCollectPersonsById` and `SetCollectPersonsById` do not target
the same URL: for every `perID` the DELETE goes to
`https://api.bgm.tv/v0/persons/<perID>/collect/`, with a slash at the end, and
the POST to `https://api.bgm.tv/v0/persons/<perID>/collect`, the path both
comments document. -/
theorem DeleteCollectPersonsById_trailing_slash (perID : String) :
    DeleteCollectPersonsById.apiURL perID =
        "https://api.bgm.tv/v0/persons/" ++ perID ++ "/collect/" ∧
      SetCollectPersonsById.apiURL perID =
        "https://api.bgm.tv/v0/persons/" ++ perID ++ "/collect" ∧
      DeleteCollectPersonsById.apiURL perID ≠ SetCollectPersonsById.apiURL perID ∧
      (DeleteCollectPersonsById ⟨"token", "agent"⟩ "123"
          ⟨fun _ => some ⟨204, some []⟩⟩).sent.map (fun r => (r.Method, r.URL)) =
        [("DELETE", "https://api.bgm.tv/v0/persons/123/collect/")] ∧
      (SetCollectPersonsById ⟨"token", "agent"⟩ "123"
          ⟨fun _ => some ⟨204, some []⟩⟩).sent.map (fun r => (r.Method, r.URL)) =
        [("POST", "https://api.bgm.tv/v0/persons/123/collect")] := by
  refine ⟨DeleteCollectPersonsById_apiURL_eq perID, SetCollectPersonsById_apiURL_eq perID, ?_,
    by decide, by decide⟩
  rw [DeleteCollectPersonsById_apiURL_eq, SetCollectPersonsById_apiURL_eq]
  intro heq
  have hd := congrArg String.data heq
  simp at hd

/-! ## Which dispatcher each endpoint uses -/

/-- C12, counterexample: `GetIndicesSubjectByID` issues a GET, yet it dispatches
through `getBoolDataFromURL` and returns a bool: a 204 answer gives (true, nil)
and a 500 answer the error of `getBoolDataFromURL`.  `SetIndices` issues a POST
and `EditIndicesInformationByIDAndRequestBody` a PUT to a URL that is no search
URL, yet both dispatch through `getJsonDataFromURL`: a 204 answer gives its
error. -/
theorem GetIndicesSubjectByID_GET_through_bool :
    (GetIndicesSubjectByID ⟨"token", "agent"⟩ "7" "动漫" "10" "0"
        ⟨fun _ => some ⟨204, some []⟩⟩).sent.map Request.Method = ["GET"] ∧
      (GetIndicesSubjectByID ⟨"token", "agent"⟩ "7" "动漫" "10" "0"
        ⟨fun _ => some ⟨204, some []⟩⟩).val = true ∧
      (GetIndicesSubjectByID ⟨"token", "agent"⟩ "7" "动漫" "10" "0"
        ⟨fun _ => some ⟨204, some []⟩⟩).err = none ∧
      (GetIndicesSubjectByID ⟨"token", "agent"⟩ "7" "动漫" "10" "0"
        ⟨fun _ => some ⟨500, some []⟩⟩).err = some "getBoolDataFromURL：错误的返回码:500" ∧
      (SetIndices ⟨"token", "agent"⟩ ⟨fun _ => some ⟨204, some []⟩⟩).sent.map
        (fun r => (r.Method, r.URL)) = [("POST", "https://api.bgm.tv/v0/indices")] ∧
      (SetIndices ⟨"token", "agent"⟩ ⟨fun _ => some ⟨204, some []⟩⟩).err =
        some "getJsonDataFromURL：错误的返回码:204" ∧
      (EditIndicesInformationByIDAndRequestBody ⟨"token", "agent"⟩ "7" "x"
        ⟨fun _ => some ⟨204, some []⟩⟩).sent.map (fun r => (r.Method, r.URL)) =
        [("PUT", "https://api.bgm.tv/v0/indices/7")] ∧
      (EditIndicesInformationByIDAndRequestBody ⟨"token", "agent"⟩ "7" "x"
        ⟨fun _ => some ⟨204, some []⟩⟩).err = some "getJsonDataFromURL：错误的返回码:204" := by
  decide

/-- C12 as amended: every endpoint that issues a GET, except
`GetIndicesSubjectByID`, dispatches through `getJsonDataFromURL` and returns
(bytes, error); every endpoint that issues a POST, PUT, PATCH or DELETE to a URL
that is no search URL, except `SetIndices` and
`EditIndicesInformationByIDAndRequestBody`, dispatches through
`getBoolDataFromURL` and returns (bool, error).  `GetIndicesSubjectByID` issues
its GET through `getBoolDataFromURL` and returns (bool, error); `SetIndices`
(POST) and `EditIndicesInformationByIDAndRequestBody` (PUT) dispatch through
`getJsonDataFromURL` and return (bytes, error), as do the three POSTs to a
search URL. -/
theorem dispatch_primitive_by_endpoint (g : Globals) (client : Client)
    (limit offset requestBody chrID userName subjectTypeName typeName subID episodesType epiID
      sbjID idxID perID revID keyWord responseGroup start nmaxResults : String) :
      -- GET through getJsonDataFromURL
      SearchCharactersById g chrID client =
        returnJson (getJsonDataFromURL g "GET"
          (SearchCharactersById.apiURL chrID) "" client) ∧
      SearchCollectionsByID g userName subID client =
        returnJson (getJsonDataFromURL g "GET"
          (SearchCollectionsByID.apiURL userName subID) "" client) ∧
      SearchUsersCollectionsEpisodesBySubjectsID g subID offset limit episodesType client =
        returnJson (getJsonDataFromURL g "GET"
          (SearchUsersCollectionsEpisodesBySubjectsID.apiURL subID offset limit
            (SearchUsersCollectionsEpisodesBySubjectsID.sType episodesType)) "" client) ∧
      SearchCollectionsEpisodesInfo g epiID client =
        returnJson (getJsonDataFromURL g "GET"
          (SearchCollectionsEpisodesInfo.apiURL epiID) "" client) ∧
      SearchCharactersCollectionsByUserName g userName client =
        returnJson (getJsonDataFromURL g "GET"
          (SearchCharactersCollectionsByUserName.apiURL userName) "" client) ∧
      SearchCharactersCollectionsByUserNameAndID g userName chrID client =
        returnJson (getJsonDataFromURL g "GET"
          (SearchCharactersCollectionsByUserNameAndID.apiURL userName chrID) "" client) ∧
      SearchPersonsCollectionsByUserName g userName client =
        returnJson (getJsonDataFromURL g "GET"
          (SearchPersonsCollectionsByUserName.apiURL userName) "" client) ∧
      SearchPersonsCollectionsByUserNameAndID g userName perID client =
        returnJson (getJsonDataFromURL g "GET"
          (SearchPersonsCollectionsByUserNameAndID.apiURL userName perID) "" client) ∧
      SearchEpisodesByEpisodesName g sbjID typeName limit offset client =
        returnJson (getJsonDataFromURL g "GET"
          (SearchEpisodesByEpisodesName.apiURL sbjID (SearchEpisodesByEpisodesName.sType typeName)
            limit offset) "" client) ∧
      SearchEpisodesByEpisodesId g epiID client =
        returnJson (getJsonDataFromURL g "GET"
          (SearchEpisodesByEpisodesId.apiURL epiID) "" client) ∧
      GetIndicesByID g idxID client =
        returnJson (getJsonDataFromURL g "GET"
          (GetIndicesByID.apiURL idxID) "" client) ∧
      SearchPersonsById g perID client =
        returnJson (getJsonDataFromURL g "GET"
          (SearchPersonsById.apiURL perID) "" client) ∧
      SearchPersonsRevisionsById g perID limit offset client =
        returnJson (getJsonDataFromURL g "GET"
          (SearchPersonsRevisionsById.apiURL perID limit offset) "" client) ∧
      SearchPersonsRevisionsByRevisionsId g revID client =
        returnJson (getJsonDataFromURL g "GET"
          (SearchPersonsRevisionsByRevisionsId.apiURL revID) "" client) ∧
      SearchCharactersRevisionsById g chrID limit offset client =
        returnJson (getJsonDataFromURL g "GET"
          (SearchCharactersRevisionsById.apiURL chrID limit offset) "" client) ∧
      SearchCharactersRevisionsByRevisionsId g revID client =
        returnJson (getJsonDataFromURL g "GET"
          (SearchCharactersRevisionsByRevisionsId.apiURL revID) "" client) ∧
      SearchSubjectsRevisionsById g subID limit offset client =
        returnJson (getJsonDataFromURL g "GET"
          (SearchSubjectsRevisionsById.apiURL subID limit offset) "" client) ∧
      SearchSubjectsRevisionsByRevisionsId g revID client =
        returnJson (getJsonDataFromURL g "GET"
          (SearchSubjectsRevisionsByRevisionsId.apiURL revID) "" client) ∧
      SearchEpisodesRevisionsById g epiID limit offset client =
        returnJson (getJsonDataFromURL g "GET"
          (SearchEpisodesRevisionsById.apiURL epiID limit offset) "" client) ∧
      SearchEpisodesRevisionsByRevisionsId g revID client =
        returnJson (getJsonDataFromURL g "GET"
          (SearchEpisodesRevisionsByRevisionsId.apiURL revID) "" client) ∧
      SearchSubjectsById g subID client =
        returnJson (getJsonDataFromURL g "GET"
          (SearchSubjectsById.apiURL subID) "" client) ∧
      SearchAllSubjectsByName g keyWord typeName responseGroup start nmaxResults client =
        returnJson (getJsonDataFromURL g "GET"
          (SearchAllSubjectsByName.apiURL keyWord (SearchAllSubjectsByName.sType typeName)
            responseGroup start nmaxResults) "" client) ∧
      GetCalender g client =
        returnJson (getJsonDataFromURL g "GET"
          GetCalender.apiURL "" client) ∧
      SearchUserNameByName g userName client =
        returnJson (getJsonDataFromURL g "GET"
          (SearchUserNameByName.apiURL userName) "" client) ∧
      GetMe g client =
        returnJson (getJsonDataFromURL g "GET"
          GetMe.apiURL "" client) ∧
      -- POST, PUT, PATCH, DELETE through getBoolDataFromURL
      SetCollectCharactersById g chrID client =
        returnBool (getBoolDataFromURL g "POST"
          (SetCollectCharactersById.apiURL chrID) "" client) ∧
      DeleteCollectCharactersById g chrID client =
        returnBool (getBoolDataFromURL g "DELETE"
          (DeleteCollectCharactersById.apiURL chrID) "" client) ∧
      AddOrEditCollectionsSubjectsInUsersByID g subID requestBody client =
        returnBool (getBoolDataFromURL g "POST"
          (AddOrEditCollectionsSubjectsInUsersByID.apiURL subID) requestBody client) ∧
      EditCollectionsSubjectsInUsersByID g subID requestBody client =
        returnBool (getBoolDataFromURL g "PATCH"
          (EditCollectionsSubjectsInUsersByID.apiURL subID) requestBody client) ∧
      GetCollectionsSubjectsEpisodesInfo g subID requestBody client =
        returnBool (getBoolDataFromURL g "PATCH"
          (GetCollectionsSubjectsEpisodesInfo.apiURL subID) requestBody client) ∧
      UpdateCollectionEpisodesInfo g epiID requestBody client =
        returnBool (getBoolDataFromURL g "PUT"
          (UpdateCollectionEpisodesInfo.apiURL epiID) requestBody client) ∧
      AddSubjectsToIndicesByIDAndRequestBody g idxID requestBody client =
        returnBool (getBoolDataFromURL g "POST"
          (AddSubjectsToIndicesByIDAndRequestBody.apiURL idxID) requestBody client) ∧
      EditSubjectsInformationInIndiesByIDAndRequestBody g idxID subID requestBody client =
        returnBool (getBoolDataFromURL g "PUT"
          (EditSubjectsInformationInIndiesByIDAndRequestBody.apiURL idxID subID) requestBody client) ∧
      DeleteSubjectsFromIndicesByID g idxID subID client =
        returnBool (getBoolDataFromURL g "DELETE"
          (DeleteSubjectsFromIndicesByID.apiURL idxID subID) "" client) ∧
      CollectIndicesForCurrentUserByID g idxID client =
        returnBool (getBoolDataFromURL g "POST"
          (CollectIndicesForCurrentUserByID.apiURL idxID) "" client) ∧
      DeleteCollectIndicesForCurrentUserByID g idxID client =
        returnBool (getBoolDataFromURL g "DELETE"
          (DeleteCollectIndicesForCurrentUserByID.apiURL idxID) "" client) ∧
      SetCollectPersonsById g perID client =
        returnBool (getBoolDataFromURL g "POST"
          (SetCollectPersonsById.apiURL perID) "" client) ∧
      DeleteCollectPersonsById g perID client =
        returnBool (getBoolDataFromURL g "DELETE"
          (DeleteCollectPersonsById.apiURL perID) "" client) ∧
      -- the three endpoints that go the other way
      SetIndices g client =
        returnJson (getJsonDataFromURL g "POST"
          SetIndices.apiURL "" client) ∧
      EditIndicesInformationByIDAndRequestBody g idxID requestBody client =
        returnJson (getJsonDataFromURL g "PUT"
          (EditIndicesInformationByIDAndRequestBody.apiURL idxID) requestBody client) ∧
      GetIndicesSubjectByID g idxID typeName limit offset client =
        returnBool (getBoolDataFromURL g "GET"
          (GetIndicesSubjectByID.apiURL idxID (GetIndicesSubjectByID.sType typeName) limit offset) "" client) ∧
      -- POST to a search URL through getJsonDataFromURL
      SearchCharactersByName g limit offset requestBody client =
        returnJson (getJsonDataFromURL g "POST"
          (SearchCharactersByName.apiURL limit offset) requestBody client) ∧
      SearchPersonsByName g limit offset requestBody client =
        returnJson (getJsonDataFromURL g "POST"
          (SearchPersonsByName.apiURL limit offset) requestBody client) ∧
      SearchSubjectsByName g limit offset requestBody client =
        returnJson (getJsonDataFromURL g "POST"
          (SearchSubjectsByName.apiURL limit offset) requestBody client) ∧
      -- GET through getJsonDataFromURL, after the check of the subject type
      SearchCollectionsByUserName g userName subjectTypeName typeName limit offset client =
        (match SearchCollectionsByUserName.sType subjectTypeName with
        | none => ⟨none, some "不匹配的subjectTypeName", []⟩
        | some sType =>
          returnJson (getJsonDataFromURL g "GET"
            (SearchCollectionsByUserName.apiURL userName sType
              (SearchCollectionsByUserName.tType typeName) limit offset) "" client)) := by
  repeat' apply And.intro
  all_goals rfl

/-! ## The request both dispatchers build -/

/-- C16: for the same method, url, requestBody, Token and UserAgent,
`getJsonDataFromURL` and `getBoolDataFromURL` hand the client the same request.
Both pass method and url unchanged to `http.NewRequest`, with no body reader
when requestBody is empty and with a reader of exactly the bytes of requestBody
otherwise, and both set on the request it returns the headers Content-Type =
application/json, Authorization = Bearer followed by Token, and User-Agent =
UserAgent; no request is handed over when `http.NewRequest` fails.  The request
`http.NewRequest` returns carries that body, and that method when it is not
empty. -/
theorem dispatchers_same_request (g : Globals) (method url requestBody : String)
    (client : Client) :
    (getJsonDataFromURL g method url requestBody client).sent =
        (getBoolDataFromURL g method url requestBody client).sent ∧
      (getJsonDataFromURL g method url requestBody client).sent =
        (match NewRequest method url
            (if requestBody = "" then none else some (bytes requestBody)) with
        | none => []
        | some req =>
          [{ req with
              Header :=
                [("Content-Type", "application/json"),
                  ("Authorization", "Bearer " ++ g.Token), ("User-Agent", g.UserAgent)] }]) ∧
      (∀ req : Request,
        NewRequest method url (if requestBody = "" then none else some (bytes requestBody)) =
            some req →
          req.Body = (if requestBody = "" then none else some (bytes requestBody)) ∧
            (method ≠ "" → req.Method = method)) := by
  have hbr := buildRequest_eq_NewRequest method url requestBody
  refine ⟨?_, ?_, ?_⟩
  · cases hb : buildRequest method url requestBody with
    | none => simp [getJsonDataFromURL, getBoolDataFromURL, hb]
    | some req => rw [getJsonDataFromURL_sent g client hb, getBoolDataFromURL_sent g client hb]
  · cases hb : buildRequest method url requestBody with
    | none =>
      rw [← hbr, hb]
      simp [getJsonDataFromURL, hb]
    | some req =>
      rw [getJsonDataFromURL_sent g client hb, ← hbr, hb]
      have hf := NewRequest_eq_some (hbr ▸ hb)
      simp [setHeaders, hf.2.2.2, Header.Set]
  · intro req hreq
    have hf := NewRequest_eq_some hreq
    refine ⟨hf.2.2.1, ?_⟩
    intro hne
    simp [hf.1, hne]

/-- Witness of C16: a PATCH with the body `x` to a collection URL.  The request
is built, and both dispatchers hand the client the request with the method
PATCH, the one-byte body and the three headers. -/
theorem dispatchers_same_request_witness :
    NewRequest "PATCH" "https://api.bgm.tv/v0/users/-/collections/12"
        (if "x" = "" then none else some (bytes "x")) =
        some ⟨"PATCH", "https://api.bgm.tv/v0/users/-/collections/12", some [120], []⟩ ∧
      ((⟨"PATCH", "https://api.bgm.tv/v0/users/-/collections/12", some [120], []⟩ :
            Request).Body = (if "x" = "" then none else some (bytes "x")) ∧
        ("PATCH" ≠ "" →
          (⟨"PATCH", "https://api.bgm.tv/v0/users/-/collections/12", some [120], []⟩ :
            Request).Method = "PATCH")) ∧
      (getBoolDataFromURL ⟨"token", "agent"⟩ "PATCH"
          "https://api.bgm.tv/v0/users/-/collections/12" "x"
          ⟨fun _ => some ⟨204, none⟩⟩).sent =
        [⟨"PATCH", "https://api.bgm.tv/v0/users/-/collections/12", some [120],
          [("Content-Type", "application/json"), ("Authorization", "Bearer token"),
            ("User-Agent", "agent")]⟩] :=
  ⟨by decide,
    (dispatchers_same_request ⟨"token", "agent"⟩ "PATCH"
      "https://api.bgm.tv/v0/users/-/collections/12" "x" ⟨fun _ => some ⟨204, none⟩⟩).2.2
      ⟨"PATCH", "https://api.bgm.tv/v0/users/-/collections/12", some [120], []⟩ (by decide),
    by decide⟩

/-! ## Absolute and percent-encoded URLs of the endpoints -/

/-- C17, counterexample: for the user name `a b` the URL `SearchUserNameByName`
hands its dispatcher holds a space, and for the user name 用户 it holds
non-ASCII characters: neither URL is fully percent-encoded.  The request with
the space is built and handed to the client with that URL text. -/
theorem SearchUserNameByName_url_not_encoded :
    SearchUserNameByName.apiURL "a b" = "https://api.bgm.tv/v0/users/a b" ∧
      fullyEncoded (SearchUserNameByName.apiURL "a b") = false ∧
      SearchUserNameByName.apiURL "用户" = "https://api.bgm.tv/v0/users/用户" ∧
      fullyEncoded (SearchUserNameByName.apiURL "用户") = false ∧
      (SearchUserNameByName ⟨"token", "agent"⟩ "a b"
        ⟨fun _ => some ⟨200, some []⟩⟩).sent.map Request.URL =
        ["https://api.bgm.tv/v0/users/a b"] := by
  decide

/-- C17 as amended: for every endpoint function and all argument values the URL
handed to the dispatcher begins with `https://api.bgm.tv/`.  The query values
are percent-encoded by `url.Values.Encode`, and the identifiers (character,
user, subject, episode, index, person and revision ids, the search keyword) are
put into the path as they are: the URL of every endpoint other than
`SearchUsersCollectionsEpisodesBySubjectsID` is fully percent-encoded whenever
the identifiers are. -/
theorem endpoint_urls_absolute_and_encoded
    (limit offset chrID userName subID epiID sbjID idxID perID revID keyWord responseGroup start
      nmaxResults : String) (sType tType : Int) :
    (∀ url ∈
        [SearchCharactersByName.apiURL limit offset,
          SearchCharactersById.apiURL chrID,
          SetCollectCharactersById.apiURL chrID,
          DeleteCollectCharactersById.apiURL chrID,
          SearchCollectionsByUserName.apiURL userName sType tType limit offset,
          SearchCollectionsByID.apiURL userName subID,
          AddOrEditCollectionsSubjectsInUsersByID.apiURL subID,
          EditCollectionsSubjectsInUsersByID.apiURL subID,
          SearchUsersCollectionsEpisodesBySubjectsID.apiURL subID offset limit sType,
          GetCollectionsSubjectsEpisodesInfo.apiURL subID,
          SearchCollectionsEpisodesInfo.apiURL epiID,
          UpdateCollectionEpisodesInfo.apiURL epiID,
          SearchCharactersCollectionsByUserName.apiURL userName,
          SearchCharactersCollectionsByUserNameAndID.apiURL userName chrID,
          SearchPersonsCollectionsByUserName.apiURL userName,
          SearchPersonsCollectionsByUserNameAndID.apiURL userName perID,
          SearchEpisodesByEpisodesName.apiURL sbjID sType limit offset,
          SearchEpisodesByEpisodesId.apiURL epiID,
          SetIndices.apiURL,
          GetIndicesByID.apiURL idxID,
          EditIndicesInformationByIDAndRequestBody.apiURL idxID,
          GetIndicesSubjectByID.apiURL idxID sType limit offset,
          AddSubjectsToIndicesByIDAndRequestBody.apiURL idxID,
          EditSubjectsInformationInIndiesByIDAndRequestBody.apiURL idxID subID,
          DeleteSubjectsFromIndicesByID.apiURL idxID subID,
          CollectIndicesForCurrentUserByID.apiURL idxID,
          DeleteCollectIndicesForCurrentUserByID.apiURL idxID,
          SearchPersonsByName.apiURL limit offset,
          SearchPersonsById.apiURL perID,
          SetCollectPersonsById.apiURL perID,
          DeleteCollectPersonsById.apiURL perID,
          SearchPersonsRevisionsById.apiURL perID limit offset,
          SearchPersonsRevisionsByRevisionsId.apiURL revID,
          SearchCharactersRevisionsById.apiURL chrID limit offset,
          SearchCharactersRevisionsByRevisionsId.apiURL revID,
          SearchSubjectsRevisionsById.apiURL subID limit offset,
          SearchSubjectsRevisionsByRevisionsId.apiURL revID,
          SearchEpisodesRevisionsById.apiURL epiID limit offset,
          SearchEpisodesRevisionsByRevisionsId.apiURL revID,
          SearchSubjectsByName.apiURL limit offset,
          SearchSubjectsById.apiURL subID,
          SearchAllSubjectsByName.apiURL keyWord sType responseGroup start nmaxResults,
          GetCalender.apiURL,
          SearchUserNameByName.apiURL userName,
          GetMe.apiURL],
      beginsWith url "https://api.bgm.tv/") ∧
    (fullyEncoded chrID = true ∧ fullyEncoded userName = true ∧ fullyEncoded subID = true ∧
        fullyEncoded epiID = true ∧ fullyEncoded idxID = true ∧ fullyEncoded perID = true ∧
        fullyEncoded revID = true ∧ fullyEncoded keyWord = true →
      ∀ url ∈
        [SearchCharactersByName.apiURL limit offset,
          SearchCharactersById.apiURL chrID,
          SetCollectCharactersById.apiURL chrID,
          DeleteCollectCharactersById.apiURL chrID,
          SearchCollectionsByUserName.apiURL userName sType tType limit offset,
          SearchCollectionsByID.apiURL userName subID,
          AddOrEditCollectionsSubjectsInUsersByID.apiURL subID,
          EditCollectionsSubjectsInUsersByID.apiURL subID,
          GetCollectionsSubjectsEpisodesInfo.apiURL subID,
          SearchCollectionsEpisodesInfo.apiURL epiID,
          UpdateCollectionEpisodesInfo.apiURL epiID,
          SearchCharactersCollectionsByUserName.apiURL userName,
          SearchCharactersCollectionsByUserNameAndID.apiURL userName chrID,
          SearchPersonsCollectionsByUserName.apiURL userName,
          SearchPersonsCollectionsByUserNameAndID.apiURL userName perID,
          SearchEpisodesByEpisodesName.apiURL sbjID sType limit offset,
          SearchEpisodesByEpisodesId.apiURL epiID,
          SetIndices.apiURL,
          GetIndicesByID.apiURL idxID,
          EditIndicesInformationByIDAndRequestBody.apiURL idxID,
          GetIndicesSubjectByID.apiURL idxID sType limit offset,
          AddSubjectsToIndicesByIDAndRequestBody.apiURL idxID,
          EditSubjectsInformationInIndiesByIDAndRequestBody.apiURL idxID subID,
          DeleteSubjectsFromIndicesByID.apiURL idxID subID,
          CollectIndicesForCurrentUserByID.apiURL idxID,
          DeleteCollectIndicesForCurrentUserByID.apiURL idxID,
          SearchPersonsByName.apiURL limit offset,
          SearchPersonsById.apiURL perID,
          SetCollectPersonsById.apiURL perID,
          DeleteCollectPersonsById.apiURL perID,
          SearchPersonsRevisionsById.apiURL perID limit offset,
          SearchPersonsRevisionsByRevisionsId.apiURL revID,
          SearchCharactersRevisionsById.apiURL chrID limit offset,
          SearchCharactersRevisionsByRevisionsId.apiURL revID,
          SearchSubjectsRevisionsById.apiURL subID limit offset,
          SearchSubjectsRevisionsByRevisionsId.apiURL revID,
          SearchEpisodesRevisionsById.apiURL epiID limit offset,
          SearchEpisodesRevisionsByRevisionsId.apiURL revID,
          SearchSubjectsByName.apiURL limit offset,
          SearchSubjectsById.apiURL subID,
          SearchAllSubjectsByName.apiURL keyWord sType responseGroup start nmaxResults,
          GetCalender.apiURL,
          SearchUserNameByName.apiURL userName,
          GetMe.apiURL],
      fullyEncoded url = true) := by
  constructor
  · simp only [List.forall_mem_cons, List.not_mem_nil, false_imp_iff, implies_true, and_true]
    repeat' apply And.intro
    all_goals simp only [
    SearchCharactersByName_apiURL_eq, SearchCharactersById_apiURL_eq,
    SetCollectCharactersById_apiURL_eq, DeleteCollectCharactersById_apiURL_eq,
    SearchCollectionsByUserName_apiURL_eq, SearchCollectionsByID_apiURL_eq,
    AddOrEditCollectionsSubjectsInUsersByID_apiURL_eq,
    EditCollectionsSubjectsInUsersByID_apiURL_eq,
    SearchUsersCollectionsEpisodesBySubjectsID_apiURL_eq,
    GetCollectionsSubjectsEpisodesInfo_apiURL_eq, SearchCollectionsEpisodesInfo_apiURL_eq,
    UpdateCollectionEpisodesInfo_apiURL_eq, SearchCharactersCollectionsByUserName_apiURL_eq,
    SearchCharactersCollectionsByUserNameAndID_apiURL_eq,
    SearchPersonsCollectionsByUserName_apiURL_eq,
    SearchPersonsCollectionsByUserNameAndID_apiURL_eq, SearchEpisodesByEpisodesName_apiURL_eq,
    SearchEpisodesByEpisodesId_apiURL_eq, GetIndicesByID_apiURL_eq,
    EditIndicesInformationByIDAndRequestBody_apiURL_eq, GetIndicesSubjectByID_apiURL_eq,
    AddSubjectsToIndicesByIDAndRequestBody_apiURL_eq,
    EditSubjectsInformationInIndiesByIDAndRequestBody_apiURL_eq,
    DeleteSubjectsFromIndicesByID_apiURL_eq, CollectIndicesForCurrentUserByID_apiURL_eq,
    DeleteCollectIndicesForCurrentUserByID_apiURL_eq, SearchPersonsByName_apiURL_eq,
    SearchPersonsById_apiURL_eq, SetCollectPersonsById_apiURL_eq,
    DeleteCollectPersonsById_apiURL_eq, SearchPersonsRevisionsById_apiURL_eq,
    SearchPersonsRevisionsByRevisionsId_apiURL_eq, SearchCharactersRevisionsById_apiURL_eq,
    SearchCharactersRevisionsByRevisionsId_apiURL_eq, SearchSubjectsRevisionsById_apiURL_eq,
    SearchSubjectsRevisionsByRevisionsId_apiURL_eq, SearchEpisodesRevisionsById_apiURL_eq,
    SearchEpisodesRevisionsByRevisionsId_apiURL_eq, SearchSubjectsByName_apiURL_eq,
    SearchSubjectsById_apiURL_eq, SearchAllSubjectsByName_apiURL_eq,
    SearchUserNameByName_apiURL_eq, SetIndices.apiURL, GetCalender.apiURL, GetMe.apiURL,
    SearchUsersCollectionsEpisodesBySubjectsID_apiURL_eq]
    all_goals
      repeat (first
        | decide!
        | apply beginsWith_append_left)
  · rintro ⟨h1, h2, h3, h4, h5, h6, h7, h8⟩
    simp only [List.forall_mem_cons, List.not_mem_nil, false_imp_iff, implies_true, and_true]
    repeat' apply And.intro
    all_goals simp only [
    SearchCharactersByName_apiURL_eq, SearchCharactersById_apiURL_eq,
    SetCollectCharactersById_apiURL_eq, DeleteCollectCharactersById_apiURL_eq,
    SearchCollectionsByUserName_apiURL_eq, SearchCollectionsByID_apiURL_eq,
    AddOrEditCollectionsSubjectsInUsersByID_apiURL_eq,
    EditCollectionsSubjectsInUsersByID_apiURL_eq,
    SearchUsersCollectionsEpisodesBySubjectsID_apiURL_eq,
    GetCollectionsSubjectsEpisodesInfo_apiURL_eq, SearchCollectionsEpisodesInfo_apiURL_eq,
    UpdateCollectionEpisodesInfo_apiURL_eq, SearchCharactersCollectionsByUserName_apiURL_eq,
    SearchCharactersCollectionsByUserNameAndID_apiURL_eq,
    SearchPersonsCollectionsByUserName_apiURL_eq,
    SearchPersonsCollectionsByUserNameAndID_apiURL_eq, SearchEpisodesByEpisodesName_apiURL_eq,
    SearchEpisodesByEpisodesId_apiURL_eq, GetIndicesByID_apiURL_eq,
    EditIndicesInformationByIDAndRequestBody_apiURL_eq, GetIndicesSubjectByID_apiURL_eq,
    AddSubjectsToIndicesByIDAndRequestBody_apiURL_eq,
    EditSubjectsInformationInIndiesByIDAndRequestBody_apiURL_eq,
    DeleteSubjectsFromIndicesByID_apiURL_eq, CollectIndicesForCurrentUserByID_apiURL_eq,
    DeleteCollectIndicesForCurrentUserByID_apiURL_eq, SearchPersonsByName_apiURL_eq,
    SearchPersonsById_apiURL_eq, SetCollectPersonsById_apiURL_eq,
    DeleteCollectPersonsById_apiURL_eq, SearchPersonsRevisionsById_apiURL_eq,
    SearchPersonsRevisionsByRevisionsId_apiURL_eq, SearchCharactersRevisionsById_apiURL_eq,
    SearchCharactersRevisionsByRevisionsId_apiURL_eq, SearchSubjectsRevisionsById_apiURL_eq,
    SearchSubjectsRevisionsByRevisionsId_apiURL_eq, SearchEpisodesRevisionsById_apiURL_eq,
    SearchEpisodesRevisionsByRevisionsId_apiURL_eq, SearchSubjectsByName_apiURL_eq,
    SearchSubjectsById_apiURL_eq, SearchAllSubjectsByName_apiURL_eq,
    SearchUserNameByName_apiURL_eq, SetIndices.apiURL, GetCalender.apiURL, GetMe.apiURL]
    all_goals
      repeat (first
        | decide!
        | apply fullyEncoded_append
        | exact fullyEncoded_QueryEscape _
        | assumption)

/-- Witness of C17 as amended: with plain ids every URL of the list is fully
percent-encoded, whatever the query values are; shown for a collection search
with a limit holding a space and an offset holding non-ASCII characters. -/
theorem endpoint_urls_absolute_and_encoded_witness :
    (fullyEncoded "123" = true ∧ fullyEncoded "alice" = true ∧ fullyEncoded "EVA" = true) ∧
      SearchCollectionsByUserName.apiURL "alice" 1 0 "1 0" "零" =
        "https://api.bgm.tv/v0/users/alice/collections?limit=1+0&offset=%E9%9B%B6&subject_type=1&type=0" ∧
      fullyEncoded (SearchCollectionsByUserName.apiURL "alice" 1 0 "1 0" "零") = true :=
  ⟨by decide, by decide,
    (endpoint_urls_absolute_and_encoded "1 0" "零" "123" "alice" "123" "123" "123" "123" "123"
      "123" "EVA" "small" "0" "10" 1 0).2 (by decide)
      (SearchCollectionsByUserName.apiURL "alice" 1 0 "1 0" "零")
      (List.mem_cons_of_mem _ (List.mem_cons_of_mem _ (List.mem_cons_of_mem _
        (List.mem_cons_of_mem _ (List.mem_cons_self _ _)))))⟩

/-! ## The sorted query of a collection search -/

/-- C18: for every user name, recognized subject type, type name, limit and
offset, the URL `SearchCollectionsByUserName` requests is
`https://api.bgm.tv/v0/users/` + userName + `/collections?limit=` + E(limit) +
`&offset=` + E(offset) + `&subject_type=` + s + `&type=` + t, with E the query
escaping and s, t the translated codes.  The keys stand in ascending order, not
in the order of the `Add` calls, and the query string holds exactly three `&`
and four `=`: four `key=value` pairs, whatever `limit` and `offset` contain. -/
theorem SearchCollectionsByUserName_sorted_query (g : Globals) (client : Client)
    (userName subjectTypeName typeName limit offset : String)
    (h : subjectTypeName ∈ ["书籍", "动漫", "音乐", "游戏", "三次元"]) :
    SearchCollectionsByUserName g userName subjectTypeName typeName limit offset client =
        returnJson (getJsonDataFromURL g "GET"
          ("https://api.bgm.tv/v0/users/" ++ userName ++ "/collections?limit=" ++
            QueryEscape limit ++ "&offset=" ++ QueryEscape offset ++ "&subject_type=" ++
            Itoa (Spec.code Spec.subjectTypes 0 subjectTypeName) ++ "&type=" ++
            Itoa (Spec.code Spec.collectionTypes 0 typeName)) "" client) ∧
      sortStrings ["subject_type", "type", "limit", "offset"] =
        ["limit", "offset", "subject_type", "type"] ∧
      ("limit=" ++ QueryEscape limit ++ "&offset=" ++ QueryEscape offset ++ "&subject_type=" ++
          Itoa (Spec.code Spec.subjectTypes 0 subjectTypeName) ++ "&type=" ++
          Itoa (Spec.code Spec.collectionTypes 0 typeName)).data.count '&' = 3 ∧
      ("limit=" ++ QueryEscape limit ++ "&offset=" ++ QueryEscape offset ++ "&subject_type=" ++
          Itoa (Spec.code Spec.subjectTypes 0 subjectTypeName) ++ "&type=" ++
          Itoa (Spec.code Spec.collectionTypes 0 typeName)).data.count '=' = 4 := by
  have hs := SearchCollectionsByUserName_sType_eq h
  have ht := SearchCollectionsByUserName_tType_eq typeName
  have hq := QueryEscape_Itoa_code _ ht.2
  rw [ht.1] at hq
  have hcode : ∀ n : Int, n ∈ [0, 1, 2, 3, 4, 5, 6] →
      (Itoa n).data.count '&' = 0 ∧ (Itoa n).data.count '=' = 0 := by decide
  have hcs := hcode _ hs.2
  have hct := hcode _ (ht.1 ▸ ht.2)
  have hl := QueryEscape_no_separator limit
  have ho := QueryEscape_no_separator offset
  refine ⟨?_, by decide, ?_, ?_⟩
  · simp only [SearchCollectionsByUserName, hs.1, SearchCollectionsByUserName_apiURL_eq,
      QueryEscape_Itoa_code _ hs.2, ht.1, hq]
  · simp only [String.data_append, List.count_append, hcs.1, hct.1,
      List.count_eq_zero.mpr hl.1, List.count_eq_zero.mpr ho.1]
    decide
  · simp only [String.data_append, List.count_append, hcs.2, hct.2,
      List.count_eq_zero.mpr hl.2, List.count_eq_zero.mpr ho.2]
    decide

/-- Witness of C18: 书籍 and 想看 with a limit holding `&` and an offset holding
`=`. -/
theorem SearchCollectionsByUserName_sorted_query_witness :
    "书籍" ∈ ["书籍", "动漫", "音乐", "游戏", "三次元"] ∧
      QueryEscape "1&2" = "1%262" ∧ QueryEscape "a=b" = "a%3Db" ∧
      ("limit=" ++ QueryEscape "1&2" ++ "&offset=" ++ QueryEscape "a=b" ++ "&subject_type=" ++
          Itoa (Spec.code Spec.subjectTypes 0 "书籍") ++ "&type=" ++
          Itoa (Spec.code Spec.collectionTypes 0 "想看")).data.count '&' = 3 :=
  ⟨by decide, by decide, by decide,
    (SearchCollectionsByUserName_sorted_query ⟨"token", "agent"⟩
      ⟨fun _ => some ⟨200, some []⟩⟩ "alice" "书籍" "想看" "1&2" "a=b" (by decide)).2.2.1⟩

end LiteBangumi




